import Mathlib

/-!
Verification development for the lite3 C shim repository
(src/lite3_shim.c, src/lite3_shim.h, src/lite3_json_disabled.c) against its
natural-language specification.

Modelling conventions:
* A C byte buffer together with its current logical length is embedded as a
  `List Nat` holding exactly the bytes in `[0, buflen)`; the capacity `bufsz`
  is carried as a separate `Nat`.  Every write is explicit list surgery, so
  "no byte of the buffer changed" is literal equality of lists.
* C `int` / `int64_t` return codes are `Int`; `size_t` values are `Nat`.
* An out-parameter that a function may leave unwritten is an `Option`
  (`none` = never written); a nullable C pointer is an `Option Nat`
  (`none` = NULL, `some o` = pointer to byte offset `o` of the buffer).
* `errno` is threaded explicitly where a function touches it; no function
  reads any global state.
* The lite3 engine itself (lite3.h, lite3_context_api.h) is not part of the
  repository sources; every engine function used by the shim is modelled from
  the specification and marked `Modelled from the spec:` in its doc comment.
-/

/- ===================== byte-level utilities ===================== -/

/-- Read one byte of the buffer; `none` when out of bounds. -/
def readByte (buf : List Nat) (i : Nat) : Option Nat := buf[i]?

/-- Read a little-endian u32 at byte offset `i`; `none` when any of the four
bytes is out of bounds. -/
def readU32 (buf : List Nat) (i : Nat) : Option Nat :=
  match buf[i]?, buf[i+1]?, buf[i+2]?, buf[i+3]? with
  | some b0, some b1, some b2, some b3 =>
    some (b0 + 256 * b1 + 65536 * b2 + 16777216 * b3)
  | _, _, _, _ => none

/-- Read a little-endian u64 at byte offset `i`. -/
def readU64 (buf : List Nat) (i : Nat) : Option Nat :=
  match readU32 buf i, readU32 buf (i+4) with
  | some lo, some hi => some (lo + 4294967296 * hi)
  | _, _ => none

/-- The four little-endian bytes of `n % 2^32`. -/
def u32Bytes (n : Nat) : List Nat :=
  [n % 256, n / 256 % 256, n / 65536 % 256, n / 16777216 % 256]

/-- The eight little-endian bytes of `n % 2^64`. -/
def u64Bytes (n : Nat) : List Nat :=
  [n % 256, n / 256 % 256, n / 65536 % 256, n / 16777216 % 256,
   n / 4294967296 % 256, n / 1099511627776 % 256,
   n / 281474976710656 % 256, n / 72057594037927936 % 256]

/-- The sub-list of `n` bytes starting at offset `i`. -/
def listSlice (buf : List Nat) (i n : Nat) : List Nat := (buf.drop i).take n

/-- Overwrite the bytes at `[i, i + data.length)` with `data` (in-place
write; the tail of the buffer is preserved). -/
def writeAt (l : List Nat) (i : Nat) (data : List Nat) : List Nat :=
  l.take i ++ data ++ l.drop (i + data.length)

theorem writeAt_length {l data : List Nat} {i : Nat}
    (h : i + data.length ≤ l.length) : (writeAt l i data).length = l.length := by
  simp only [writeAt, List.length_append, List.length_take, List.length_drop]
  omega

theorem readU32_some_bound {buf : List Nat} {i n : Nat}
    (h : readU32 buf i = some n) : i + 4 ≤ buf.length := by
  unfold readU32 at h
  rcases h3 : buf[i+3]? with _ | b3
  · rw [h3] at h
    rcases buf[i]? with _ | b0 <;> rcases buf[i+1]? with _ | b1 <;>
      rcases buf[i+2]? with _ | b2 <;> simp at h
  · obtain ⟨hlt, -⟩ := List.getElem?_eq_some_iff.mp h3
    omega

/- ===================== error model ===================== -/

/-- Modelled from the spec (section 7 error taxonomy): each error kind is a
distinct negative return code; the exact numeric values are not fixed by the
spec and are chosen here as distinct negatives. -/
def ERR_TYPE : Int := -2

/-- Modelled from the spec: `KeyNotFound` return code. -/
def ERR_KEY : Int := -3

/-- Modelled from the spec: `IndexOutOfRange` return code. -/
def ERR_INDEX : Int := -4

/-- Modelled from the spec: `CapacityExceeded` return code. -/
def ERR_CAPACITY : Int := -5

/-- Modelled from the spec: `MalformedEncoding` return code. -/
def ERR_MALFORMED : Int := -6

/-- Modelled from the spec: `JsonUnsupportedValue` return code. -/
def ERR_UNSUPPORTED : Int := -7

/-- The POSIX `EINVAL` errno value used by `lite3_json_disabled.c`. -/
def EINVAL : Nat := 22

/- ===================== disabled JSON codec (lite3_json_disabled.c) ===================== -/

namespace JsonDisabled

/-- Result of a decoding entry point: return code, buffer bytes after the
call, the value of `*out_buflen` after the call, and `errno` after the call. -/
structure DecResult where
  ret : Int
  buf : List Nat
  out_buflen : Nat
  errno : Nat
deriving DecidableEq

/-- Result of `lite3_json_print`. -/
structure PrintResult where
  ret : Int
  errno : Nat
deriving DecidableEq

/-- Result of the allocating encoders: returned text (`none` = NULL),
`*out_len` after the call (`none` = caller passed NULL), and `errno`. -/
structure EncResult where
  ret : Option (List Nat)
  out_len : Option Nat
  errno : Nat
deriving DecidableEq

/-- Result of the caller-buffer encoders. -/
structure EncBufResult where
  ret : Int
  json_buf : List Nat
  errno : Nat
deriving DecidableEq

/-- `lite3_json_disabled_error` from lite3_json_disabled.c: sets
`errno = EINVAL` and returns `-1`.  The incoming errno is never read. -/
def lite3_json_disabled_error (_e : Nat) : Int × Nat := (-1, EINVAL)

/-- `lite3_json_dec` from lite3_json_disabled.c: every parameter is ignored
and the call fails with the feature-disabled error. -/
def lite3_json_dec (buf : List Nat) (out_buflen : Nat) (_bufsz : Nat)
    (_json_str : List Nat) (_json_len : Nat) (e : Nat) : DecResult :=
  let r := lite3_json_disabled_error e
  { ret := r.1, buf := buf, out_buflen := out_buflen, errno := r.2 }

/-- `lite3_json_dec_file` from lite3_json_disabled.c. -/
def lite3_json_dec_file (buf : List Nat) (out_buflen : Nat) (_bufsz : Nat)
    (_path : List Nat) (e : Nat) : DecResult :=
  let r := lite3_json_disabled_error e
  { ret := r.1, buf := buf, out_buflen := out_buflen, errno := r.2 }

/-- `lite3_json_dec_fp` from lite3_json_disabled.c (the `FILE *` stream is an
opaque handle). -/
def lite3_json_dec_fp (buf : List Nat) (out_buflen : Nat) (_bufsz : Nat)
    (_fp : Nat) (e : Nat) : DecResult :=
  let r := lite3_json_disabled_error e
  { ret := r.1, buf := buf, out_buflen := out_buflen, errno := r.2 }

/-- `lite3_json_print` from lite3_json_disabled.c. -/
def lite3_json_print (_buf : List Nat) (_buflen _ofs : Nat) (e : Nat) : PrintResult :=
  let r := lite3_json_disabled_error e
  { ret := r.1, errno := r.2 }

/-- `lite3_json_enc` from lite3_json_disabled.c: returns NULL, sets
`*out_len = 0` when `out_len` is non-NULL, sets `errno = EINVAL`. -/
def lite3_json_enc (_buf : List Nat) (_buflen _ofs : Nat)
    (out_len : Option Nat) (_e : Nat) : EncResult :=
  { ret := none, out_len := out_len.map (fun _ => 0), errno := EINVAL }

/-- `lite3_json_enc_pretty` from lite3_json_disabled.c. -/
def lite3_json_enc_pretty (_buf : List Nat) (_buflen _ofs : Nat)
    (out_len : Option Nat) (_e : Nat) : EncResult :=
  { ret := none, out_len := out_len.map (fun _ => 0), errno := EINVAL }

/-- `lite3_json_enc_buf` from lite3_json_disabled.c: the caller buffer is
never written. -/
def lite3_json_enc_buf (_buf : List Nat) (_buflen _ofs : Nat)
    (json_buf : List Nat) (_json_bufsz : Nat) (e : Nat) : EncBufResult :=
  let r := lite3_json_disabled_error e
  { ret := r.1, json_buf := json_buf, errno := r.2 }

/-- `lite3_json_enc_pretty_buf` from lite3_json_disabled.c. -/
def lite3_json_enc_pretty_buf (_buf : List Nat) (_buflen _ofs : Nat)
    (json_buf : List Nat) (_json_bufsz : Nat) (e : Nat) : EncBufResult :=
  let r := lite3_json_disabled_error e
  { ret := r.1, json_buf := json_buf, errno := r.2 }

end JsonDisabled

/- ===================== claims C1 and C2 ===================== -/

/-- C1: when the JSON codec is disabled, every codec entry point fails
uniformly with the single feature-disabled error for every input:
`lite3_json_dec`, `lite3_json_dec_file`, `lite3_json_dec_fp`,
`lite3_json_print`, `lite3_json_enc_buf` and `lite3_json_enc_pretty_buf`
return `-1`; `lite3_json_enc` and `lite3_json_enc_pretty` return NULL and
set `*out_len` to `0` exactly when `out_len` is non-NULL; every entry point
sets `errno = EINVAL`; all are total functions, so every call terminates and
none aborts. -/
theorem claim1_disabled_codec_uniform_failure
    (buf : List Nat) (out_buflen bufsz : Nat) (js : List Nat) (jl : Nat)
    (path : List Nat) (fp buflen ofs : Nat) (out_len : Option Nat)
    (json_buf : List Nat) (json_bufsz e : Nat) :
    (JsonDisabled.lite3_json_dec buf out_buflen bufsz js jl e).ret = -1 ∧
    (JsonDisabled.lite3_json_dec buf out_buflen bufsz js jl e).errno = EINVAL ∧
    (JsonDisabled.lite3_json_dec_file buf out_buflen bufsz path e).ret = -1 ∧
    (JsonDisabled.lite3_json_dec_file buf out_buflen bufsz path e).errno = EINVAL ∧
    (JsonDisabled.lite3_json_dec_fp buf out_buflen bufsz fp e).ret = -1 ∧
    (JsonDisabled.lite3_json_dec_fp buf out_buflen bufsz fp e).errno = EINVAL ∧
    (JsonDisabled.lite3_json_print buf buflen ofs e).ret = -1 ∧
    (JsonDisabled.lite3_json_print buf buflen ofs e).errno = EINVAL ∧
    (JsonDisabled.lite3_json_enc buf buflen ofs out_len e).ret = none ∧
    (JsonDisabled.lite3_json_enc buf buflen ofs out_len e).out_len
      = out_len.map (fun _ => 0) ∧
    (JsonDisabled.lite3_json_enc buf buflen ofs out_len e).errno = EINVAL ∧
    (JsonDisabled.lite3_json_enc_pretty buf buflen ofs out_len e).ret = none ∧
    (JsonDisabled.lite3_json_enc_pretty buf buflen ofs out_len e).out_len
      = out_len.map (fun _ => 0) ∧
    (JsonDisabled.lite3_json_enc_pretty buf buflen ofs out_len e).errno = EINVAL ∧
    (JsonDisabled.lite3_json_enc_buf buf buflen ofs json_buf json_bufsz e).ret = -1 ∧
    (JsonDisabled.lite3_json_enc_buf buf buflen ofs json_buf json_bufsz e).errno = EINVAL ∧
    (JsonDisabled.lite3_json_enc_pretty_buf buf buflen ofs json_buf json_bufsz e).ret = -1 ∧
    (JsonDisabled.lite3_json_enc_pretty_buf buf buflen ofs json_buf json_bufsz e).errno = EINVAL :=
  ⟨rfl, rfl, rfl, rfl, rfl, rfl, rfl, rfl, rfl, rfl, rfl, rfl, rfl, rfl, rfl,
   rfl, rfl, rfl⟩

/-- C2: a failed JSON decode changes nothing: in the disabled configuration
each of `lite3_json_dec`, `lite3_json_dec_file` and `lite3_json_dec_fp`
returns an error (`-1 < 0`) while leaving every byte of `buf` and the value
`*out_buflen` exactly as they were before the call. -/
theorem claim2_failed_decode_preserves_state
    (buf : List Nat) (out_buflen bufsz : Nat) (js : List Nat) (jl : Nat)
    (path : List Nat) (fp e : Nat) :
    (JsonDisabled.lite3_json_dec buf out_buflen bufsz js jl e).ret < 0 ∧
    (JsonDisabled.lite3_json_dec buf out_buflen bufsz js jl e).buf = buf ∧
    (JsonDisabled.lite3_json_dec buf out_buflen bufsz js jl e).out_buflen = out_buflen ∧
    (JsonDisabled.lite3_json_dec_file buf out_buflen bufsz path e).ret < 0 ∧
    (JsonDisabled.lite3_json_dec_file buf out_buflen bufsz path e).buf = buf ∧
    (JsonDisabled.lite3_json_dec_file buf out_buflen bufsz path e).out_buflen = out_buflen ∧
    (JsonDisabled.lite3_json_dec_fp buf out_buflen bufsz fp e).ret < 0 ∧
    (JsonDisabled.lite3_json_dec_fp buf out_buflen bufsz fp e).buf = buf ∧
    (JsonDisabled.lite3_json_dec_fp buf out_buflen bufsz fp e).out_buflen = out_buflen :=
  ⟨show (-1 : Int) < 0 by decide, rfl, rfl, show (-1 : Int) < 0 by decide,
   rfl, rfl, show (-1 : Int) < 0 by decide, rfl, rfl⟩

/- ===================== engine binary model ===================== -/

/-- The value payloads a single bounded-mode mutating call can write: the
scalar variants plus freshly created empty containers (`lite3_set_obj`,
`lite3_set_arr`, `lite3_arr_append_obj`, `lite3_arr_append_arr` create empty
containers). -/
inductive SetVal where
  | vnull
  | vbool (b : Bool)
  | vi64 (v : Int)
  | vf64 (bits : Nat)
  | vstr (s : List Nat)
  | vbytes (d : List Nat)
  | vobj
  | varr
deriving DecidableEq

/-- Modelled from the spec (4.1 Binary Encoding): each stored value begins
with a type tag followed by a variant-specific payload.  Layout chosen here
(the spec leaves the bit-exact layout implementation-defined):
tag 0 = Null (1 byte); tag 1 = Bool, 1 payload byte; tag 2 = Int64, 8 bytes
little-endian two's complement; tag 3 = Float64, 8 bytes of the bit pattern;
tag 4 = String and tag 5 = Bytes, u32 length prefix then raw bytes;
tag 6 = Object and tag 7 = Array, u32 entry count then a u32 self-relative
offset of the first entry node (0 = none); entry nodes live elsewhere in the
buffer and are chained by u32 next links. -/
def encodeVal : SetVal → List Nat
  | .vnull => [0]
  | .vbool b => [1, if b then 1 else 0]
  | .vi64 v => 2 :: u64Bytes ((v % (18446744073709551616 : Int))).toNat
  | .vf64 bits => 3 :: u64Bytes bits
  | .vstr s => 4 :: (u32Bytes s.length ++ s)
  | .vbytes d => 5 :: (u32Bytes d.length ++ d)
  | .vobj => 6 :: (u32Bytes 0 ++ u32Bytes 0)
  | .varr => 7 :: (u32Bytes 0 ++ u32Bytes 0)

/-- Modelled from the spec: the size in bytes of the inline encoding of the
value stored at `ofs` (a container's inline part is its 9-byte header, its
entry nodes live elsewhere); `none` on a malformed tag or truncated length
field. -/
def valSize (buf : List Nat) (ofs : Nat) : Option Nat :=
  match readByte buf ofs with
  | some 0 => some 1
  | some 1 => some 2
  | some 2 => some 9
  | some 3 => some 9
  | some 4 => (readU32 buf (ofs+1)).map (fun n => 5 + n)
  | some 5 => (readU32 buf (ofs+1)).map (fun n => 5 + n)
  | some 6 => some 9
  | some 7 => some 9
  | _ => none

/-- Result of searching an object's entry chain for a key: the entry was
found (`linkPos` = offset of the u32 link field that points at the node,
`nodeOfs` = offset of the node, `valOfs` = offset of the entry's value),
or the key is absent (`tailLinkPos` = offset of the final, zero link field),
or the chain is malformed. -/
inductive FindRes where
  | found (linkPos nodeOfs valOfs : Nat)
  | notFound (tailLinkPos : Nat)
  | bad
deriving DecidableEq

/-- Modelled from the spec (4.2, key lookup by exact match): follow the
object's entry chain.  An entry node is `[next : u32][keyLen : u32][key
bytes][value]`.  `fuel` is the object's recorded entry count; a chain longer
than its count is malformed. -/
def findKey (buf : List Nat) (key : List Nat) : Nat → Nat → FindRes
  | 0, linkPos =>
    match readU32 buf linkPos with
    | some link => if link = 0 then .notFound linkPos else .bad
    | none => .bad
  | fuel+1, linkPos =>
    match readU32 buf linkPos with
    | none => .bad
    | some link =>
      if link = 0 then .notFound linkPos
      else
        match readU32 buf (link+4) with
        | none => .bad
        | some klen =>
          if link + 8 + klen ≤ buf.length then
            if listSlice buf (link+8) klen = key then .found linkPos link (link+8+klen)
            else findKey buf key fuel link
          else .bad

/-- Modelled from the spec (I1: accessors validate tag/bounds before
trusting payload lengths): the object entry chain starting at the link field
`linkPos` has exactly `fuel` well-formed in-bounds nodes. -/
def chainOk (buf : List Nat) : Nat → Nat → Bool
  | 0, linkPos =>
    match readU32 buf linkPos with
    | some link => if link = 0 then true else false
    | none => false
  | fuel+1, linkPos =>
    match readU32 buf linkPos with
    | none => false
    | some link =>
      if link = 0 then false
      else
        match readU32 buf (link+4) with
        | none => false
        | some klen =>
          if link + 8 + klen ≤ buf.length then
            match valSize buf (link+8+klen) with
            | some vsz =>
              if link + 8 + klen + vsz ≤ buf.length then chainOk buf fuel link
              else false
            | none => false
          else false

/-- A well-formed object header at `ofs`: tag 6, readable count and first
link, and an entry chain of exactly `count` well-formed nodes. -/
def wfObj (buf : List Nat) (ofs : Nat) : Bool :=
  match readByte buf ofs with
  | some 6 =>
    match readU32 buf (ofs+1), readU32 buf (ofs+5) with
    | some count, some _ => chainOk buf count (ofs+5)
    | _, _ => false
  | _ => false

/-- Modelled from the spec: walk an array's element chain (node layout
`[next : u32][value]`) of exactly `fuel` nodes and return the offset of the
final zero link field; `none` if malformed. -/
def findTail (buf : List Nat) : Nat → Nat → Option Nat
  | 0, linkPos =>
    match readU32 buf linkPos with
    | some link => if link = 0 then some linkPos else none
    | none => none
  | fuel+1, linkPos =>
    match readU32 buf linkPos with
    | none => none
    | some link => if link = 0 then none else findTail buf fuel link

/-- The array element chain starting at link field `linkPos` has exactly
`fuel` well-formed in-bounds nodes. -/
def arrChainOk (buf : List Nat) : Nat → Nat → Bool
  | 0, linkPos =>
    match readU32 buf linkPos with
    | some link => if link = 0 then true else false
    | none => false
  | fuel+1, linkPos =>
    match readU32 buf linkPos with
    | none => false
    | some link =>
      if link = 0 then false
      else
        match valSize buf (link+4) with
        | some vsz =>
          if link + 4 + vsz ≤ buf.length then arrChainOk buf fuel link
          else false
        | none => false

/-- A well-formed array header at `ofs`. -/
def wfArr (buf : List Nat) (ofs : Nat) : Bool :=
  match readByte buf ofs with
  | some 7 =>
    match readU32 buf (ofs+1), readU32 buf (ofs+5) with
    | some count, some _ => arrChainOk buf count (ofs+5)
    | _, _ => false
  | _ => false

/-- Result of a bounded-mode mutating call: return code, the buffer (bytes
`[0, *inout_buflen)`) after the call, and the offset at which the value was
written (`none` unless the call succeeded; this is what `lite3_set_obj` and
friends report through `*out_ofs`). -/
structure SetResult where
  ret : Int
  buf : List Nat
  valOfs : Option Nat
deriving DecidableEq

/-- Modelled from the spec (4.2 Set-by-key): if the key exists and the new
encoding has the same size, replace the value in place; if it exists with a
different size, write a replacement entry node at the end of the used region
and relink the chain (the old node's bytes are abandoned, space is not
reclaimed); if the key does not exist, append a new entry node and bump the
header count.  Every path that would grow the used region beyond `bufsz`
fails with `ERR_CAPACITY` before writing a single byte. -/
def lite3_set (buf : List Nat) (ofs bufsz : Nat) (key : List Nat)
    (v : SetVal) : SetResult :=
  match readByte buf ofs with
  | some 6 =>
    match readU32 buf (ofs+1) with
    | none => ⟨ERR_MALFORMED, buf, none⟩
    | some count =>
      match findKey buf key count (ofs+5) with
      | .bad => ⟨ERR_MALFORMED, buf, none⟩
      | .found linkPos nodeOfs valOfs =>
        match valSize buf valOfs with
        | none => ⟨ERR_MALFORMED, buf, none⟩
        | some oldSz =>
          let enc := encodeVal v
          if enc.length = oldSz then ⟨0, writeAt buf valOfs enc, some valOfs⟩
          else
            match readU32 buf nodeOfs with
            | none => ⟨ERR_MALFORMED, buf, none⟩
            | some oldNext =>
              let node := u32Bytes oldNext ++ u32Bytes key.length ++ key ++ enc
              if buf.length + node.length > bufsz then ⟨ERR_CAPACITY, buf, none⟩
              else
                ⟨0, writeAt (buf ++ node) linkPos (u32Bytes buf.length),
                 some (buf.length + 8 + key.length)⟩
      | .notFound tailLink =>
        let enc := encodeVal v
        let node := u32Bytes 0 ++ u32Bytes key.length ++ key ++ enc
        if buf.length + node.length > bufsz then ⟨ERR_CAPACITY, buf, none⟩
        else
          ⟨0, writeAt (writeAt (buf ++ node) tailLink (u32Bytes buf.length))
               (ofs+1) (u32Bytes (count+1)),
           some (buf.length + 8 + key.length)⟩
  | some _ => ⟨ERR_TYPE, buf, none⟩
  | none => ⟨ERR_MALFORMED, buf, none⟩

/-- Modelled from the spec (4.2 Append-to-array): always appends past the
current end, growing the used region; fails with `ERR_CAPACITY` before
writing anything when that would exceed `bufsz`. -/
def lite3_arr_append (buf : List Nat) (ofs bufsz : Nat) (v : SetVal) : SetResult :=
  match readByte buf ofs with
  | some 7 =>
    match readU32 buf (ofs+1) with
    | none => ⟨ERR_MALFORMED, buf, none⟩
    | some count =>
      match findTail buf count (ofs+5) with
      | none => ⟨ERR_MALFORMED, buf, none⟩
      | some tail =>
        let node := u32Bytes 0 ++ encodeVal v
        if buf.length + node.length > bufsz then ⟨ERR_CAPACITY, buf, none⟩
        else
          ⟨0, writeAt (writeAt (buf ++ node) tail (u32Bytes buf.length))
               (ofs+1) (u32Bytes (count+1)),
           some (buf.length + 4)⟩
  | some _ => ⟨ERR_TYPE, buf, none⟩
  | none => ⟨ERR_MALFORMED, buf, none⟩

/-- Modelled from the spec: `lite3_set_null` writes a `Null` value. -/
def lite3_set_null (buf : List Nat) (ofs bufsz : Nat) (key : List Nat) : SetResult :=
  lite3_set buf ofs bufsz key .vnull

/-- Modelled from the spec: `lite3_set_bool`. -/
def lite3_set_bool (buf : List Nat) (ofs bufsz : Nat) (key : List Nat) (b : Bool) : SetResult :=
  lite3_set buf ofs bufsz key (.vbool b)

/-- Modelled from the spec: `lite3_set_i64`. -/
def lite3_set_i64 (buf : List Nat) (ofs bufsz : Nat) (key : List Nat) (v : Int) : SetResult :=
  lite3_set buf ofs bufsz key (.vi64 v)

/-- Modelled from the spec: `lite3_set_f64` (the double is its bit pattern). -/
def lite3_set_f64 (buf : List Nat) (ofs bufsz : Nat) (key : List Nat) (bits : Nat) : SetResult :=
  lite3_set buf ofs bufsz key (.vf64 bits)

/-- Modelled from the spec: `lite3_set_str_n` (explicit-length string set). -/
def lite3_set_str_n (buf : List Nat) (ofs bufsz : Nat) (key s : List Nat) : SetResult :=
  lite3_set buf ofs bufsz key (.vstr s)

/-- Modelled from the spec: `lite3_set_bytes`. -/
def lite3_set_bytes (buf : List Nat) (ofs bufsz : Nat) (key d : List Nat) : SetResult :=
  lite3_set buf ofs bufsz key (.vbytes d)

/-- Modelled from the spec: `lite3_set_obj` creates an empty nested object
and reports its offset through `*out_ofs`. -/
def lite3_set_obj (buf : List Nat) (ofs bufsz : Nat) (key : List Nat) : SetResult :=
  lite3_set buf ofs bufsz key .vobj

/-- Modelled from the spec: `lite3_set_arr`. -/
def lite3_set_arr (buf : List Nat) (ofs bufsz : Nat) (key : List Nat) : SetResult :=
  lite3_set buf ofs bufsz key .varr

/-- Modelled from the spec: `lite3_arr_append_null`. -/
def lite3_arr_append_null (buf : List Nat) (ofs bufsz : Nat) : SetResult :=
  lite3_arr_append buf ofs bufsz .vnull

/-- Modelled from the spec: `lite3_arr_append_bool`. -/
def lite3_arr_append_bool (buf : List Nat) (ofs bufsz : Nat) (b : Bool) : SetResult :=
  lite3_arr_append buf ofs bufsz (.vbool b)

/-- Modelled from the spec: `lite3_arr_append_i64`. -/
def lite3_arr_append_i64 (buf : List Nat) (ofs bufsz : Nat) (v : Int) : SetResult :=
  lite3_arr_append buf ofs bufsz (.vi64 v)

/-- Modelled from the spec: `lite3_arr_append_f64`. -/
def lite3_arr_append_f64 (buf : List Nat) (ofs bufsz : Nat) (bits : Nat) : SetResult :=
  lite3_arr_append buf ofs bufsz (.vf64 bits)

/-- Modelled from the spec: `lite3_arr_append_str_n`. -/
def lite3_arr_append_str_n (buf : List Nat) (ofs bufsz : Nat) (s : List Nat) : SetResult :=
  lite3_arr_append buf ofs bufsz (.vstr s)

/-- Modelled from the spec: `lite3_arr_append_bytes`. -/
def lite3_arr_append_bytes (buf : List Nat) (ofs bufsz : Nat) (d : List Nat) : SetResult :=
  lite3_arr_append buf ofs bufsz (.vbytes d)

/-- Modelled from the spec: `lite3_arr_append_obj`. -/
def lite3_arr_append_obj (buf : List Nat) (ofs bufsz : Nat) : SetResult :=
  lite3_arr_append buf ofs bufsz .vobj

/-- Modelled from the spec: `lite3_arr_append_arr`. -/
def lite3_arr_append_arr (buf : List Nat) (ofs bufsz : Nat) : SetResult :=
  lite3_arr_append buf ofs bufsz .varr

/- ===================== chain lemmas for C3 ===================== -/

theorem u32Bytes_length (n : Nat) : (u32Bytes n).length = 4 := rfl

theorem chainOk_head {buf : List Nat} {fuel lp : Nat}
    (h : chainOk buf fuel lp = true) : ∃ x, readU32 buf lp = some x := by
  cases fuel with
  | zero =>
    unfold chainOk at h
    rcases hr : readU32 buf lp with _ | x
    · rw [hr] at h; simp at h
    · exact ⟨x, rfl⟩
  | succ fuel =>
    unfold chainOk at h
    rcases hr : readU32 buf lp with _ | x
    · rw [hr] at h; simp at h
    · exact ⟨x, rfl⟩

theorem chainOk_findKey (buf key : List Nat) (fuel : Nat) : ∀ linkPos : Nat,
    chainOk buf fuel linkPos = true →
    (match findKey buf key fuel linkPos with
     | .found lp n v =>
       (∃ nx, readU32 buf n = some nx) ∧ (∃ lk, readU32 buf lp = some lk) ∧
       (∃ sz, valSize buf v = some sz ∧ v + sz ≤ buf.length)
     | .notFound t => readU32 buf t = some 0
     | .bad => False) := by
  induction fuel with
  | zero =>
    intro linkPos h
    unfold chainOk at h
    split at h
    next link heq =>
      by_cases hx : link = 0
      · subst hx; simp [findKey, heq]
      · rw [if_neg hx] at h; simp at h
    next => simp at h
  | succ fuel ih =>
    intro linkPos h
    unfold chainOk at h
    split at h
    next => simp at h
    next link heq =>
      by_cases hl : link = 0
      · rw [if_pos hl] at h; simp at h
      · rw [if_neg hl] at h
        split at h
        next => simp at h
        next klen heq2 =>
          by_cases hb : link + 8 + klen ≤ buf.length
          · rw [if_pos hb] at h
            split at h
            next vsz hv =>
              by_cases hb2 : link + 8 + klen + vsz ≤ buf.length
              · rw [if_pos hb2] at h
                by_cases hkey : listSlice buf (link+8) klen = key
                · simp only [findKey, heq, if_neg hl, heq2, if_pos hb, if_pos hkey]
                  exact ⟨chainOk_head h, ⟨link, rfl⟩, ⟨vsz, hv, hb2⟩⟩
                · simp only [findKey, heq, if_neg hl, heq2, if_pos hb, if_neg hkey]
                  exact ih link h
              · rw [if_neg hb2] at h; simp at h
            next hv => simp at h
          · rw [if_neg hb] at h; simp at h

theorem arrChainOk_findTail (buf : List Nat) (fuel : Nat) : ∀ linkPos : Nat,
    arrChainOk buf fuel linkPos = true →
    ∃ t, findTail buf fuel linkPos = some t ∧ readU32 buf t = some 0 := by
  induction fuel with
  | zero =>
    intro linkPos h
    unfold arrChainOk at h
    split at h
    next link heq =>
      by_cases hx : link = 0
      · subst hx; exact ⟨linkPos, by simp [findTail, heq], heq⟩
      · rw [if_neg hx] at h; simp at h
    next => simp at h
  | succ fuel ih =>
    intro linkPos h
    unfold arrChainOk at h
    split at h
    next => simp at h
    next link heq =>
      by_cases hl : link = 0
      · rw [if_pos hl] at h; simp at h
      · rw [if_neg hl] at h
        split at h
        next vsz hv =>
          by_cases hb : link + 4 + vsz ≤ buf.length
          · rw [if_pos hb] at h
            obtain ⟨t, ht, ht0⟩ := ih link h
            exact ⟨t, by simp [findTail, heq, ht, hl], ht0⟩
          · rw [if_neg hb] at h; simp at h
        next hv => simp at h

theorem node_length (a b : Nat) (k e : List Nat) :
    (u32Bytes a ++ u32Bytes b ++ k ++ e).length = 8 + k.length + e.length := by
  simp [u32Bytes]; omega

theorem arrnode_length (a : Nat) (e : List Nat) :
    (u32Bytes a ++ e).length = 4 + e.length := by
  simp [u32Bytes]; omega

/-- C3: bounded-mode capacity failure is atomic.  For every bounded-mode
mutating call — `lite3_set` covers `shim_lite3_set_null`/`_bool`/`_i64`/
`_f64`/`_str`/`_bytes`/`_obj`/`_arr` (each is `lite3_set` at a fixed
`SetVal`), and `lite3_arr_append` covers the `shim_lite3_arr_append_*`
family — on a well-formed container with `*inout_buflen ≤ bufsz`: the call
either fails with the capacity-exceeded error, in which case every byte of
`buf` in `[0, old *inout_buflen)` and the value `*inout_buflen` are left
exactly unchanged and the completed write would indeed have exceeded
`bufsz`, or it returns success (0) with an updated length that still fits in
`bufsz`. -/
theorem claim3_bounded_capacity_atomic
    (buf : List Nat) (ofs bufsz : Nat) (key : List Nat) (v : SetVal)
    (hle : buf.length ≤ bufsz) :
    (wfObj buf ofs = true →
      ((lite3_set buf ofs bufsz key v).ret = ERR_CAPACITY ∨
        (lite3_set buf ofs bufsz key v).ret = 0) ∧
      ((lite3_set buf ofs bufsz key v).ret = ERR_CAPACITY →
        (lite3_set buf ofs bufsz key v).buf = buf ∧
        bufsz < buf.length + 8 + key.length + (encodeVal v).length) ∧
      ((lite3_set buf ofs bufsz key v).ret = 0 →
        buf.length ≤ (lite3_set buf ofs bufsz key v).buf.length ∧
        (lite3_set buf ofs bufsz key v).buf.length ≤ bufsz)) ∧
    (wfArr buf ofs = true →
      ((lite3_arr_append buf ofs bufsz v).ret = ERR_CAPACITY ∨
        (lite3_arr_append buf ofs bufsz v).ret = 0) ∧
      ((lite3_arr_append buf ofs bufsz v).ret = ERR_CAPACITY →
        (lite3_arr_append buf ofs bufsz v).buf = buf ∧
        bufsz < buf.length + 4 + (encodeVal v).length) ∧
      ((lite3_arr_append buf ofs bufsz v).ret = 0 →
        (lite3_arr_append buf ofs bufsz v).buf.length =
          buf.length + 4 + (encodeVal v).length ∧
        (lite3_arr_append buf ofs bufsz v).buf.length ≤ bufsz)) := by
  constructor
  · intro hwf
    unfold wfObj at hwf
    split at hwf
    case h_2 => simp at hwf
    case h_1 heq =>
      split at hwf
      case h_2 => simp at hwf
      case h_1 count x heqc heqf =>
        have hcls := chainOk_findKey buf key count (ofs+5) hwf
        cases hf : findKey buf key count (ofs+5) with
        | bad =>
          rw [hf] at hcls
          exact hcls.elim
        | found lp n vofs =>
          rw [hf] at hcls
          obtain ⟨⟨nx, hnx⟩, ⟨lk, hlk⟩, ⟨sz, hsz, hszb⟩⟩ := hcls
          by_cases henc : (encodeVal v).length = sz
          · have hset : lite3_set buf ofs bufsz key v =
                ⟨0, writeAt buf vofs (encodeVal v), some vofs⟩ := by
              simp only [lite3_set, heq, heqc, hf, hsz, if_pos henc]
            have hret : (lite3_set buf ofs bufsz key v).ret = 0 := by rw [hset]
            have hbuf : (lite3_set buf ofs bufsz key v).buf
                = writeAt buf vofs (encodeVal v) := by rw [hset]
            refine ⟨Or.inr hret, ?_, ?_⟩
            · intro h0
              have hc := hret.symm.trans h0
              simp [ERR_CAPACITY] at hc
            · intro _
              have hw : (writeAt buf vofs (encodeVal v)).length = buf.length :=
                writeAt_length (by omega)
              rw [hbuf, hw]
              exact ⟨le_refl _, hle⟩
          · by_cases hcap : buf.length +
                (u32Bytes nx ++ u32Bytes key.length ++ key ++ encodeVal v).length > bufsz
            · have hset : lite3_set buf ofs bufsz key v =
                  ⟨ERR_CAPACITY, buf, none⟩ := by
                simp only [lite3_set, heq, heqc, hf, hsz, if_neg henc, hnx, if_pos hcap]
              have hret : (lite3_set buf ofs bufsz key v).ret = ERR_CAPACITY := by rw [hset]
              have hbuf : (lite3_set buf ofs bufsz key v).buf = buf := by rw [hset]
              refine ⟨Or.inl hret, ?_, ?_⟩
              · intro _
                refine ⟨hbuf, ?_⟩
                rw [node_length] at hcap
                omega
              · intro h0
                have hc := hret.symm.trans h0
                simp [ERR_CAPACITY] at hc
            · have hset : lite3_set buf ofs bufsz key v =
                  ⟨0, writeAt
                    (buf ++ (u32Bytes nx ++ u32Bytes key.length ++ key ++ encodeVal v))
                    lp (u32Bytes buf.length),
                   some (buf.length + 8 + key.length)⟩ := by
                simp only [lite3_set, heq, heqc, hf, hsz, if_neg henc, hnx, if_neg hcap]
              have hret : (lite3_set buf ofs bufsz key v).ret = 0 := by rw [hset]
              have hbuf : (lite3_set buf ofs bufsz key v).buf = writeAt
                    (buf ++ (u32Bytes nx ++ u32Bytes key.length ++ key ++ encodeVal v))
                    lp (u32Bytes buf.length) := by rw [hset]
              refine ⟨Or.inr hret, ?_, ?_⟩
              · intro h0
                have hc := hret.symm.trans h0
                simp [ERR_CAPACITY] at hc
              · intro _
                have hlpb : lp + 4 ≤ buf.length := readU32_some_bound hlk
                have hb : lp + (u32Bytes buf.length).length ≤
                    (buf ++ (u32Bytes nx ++ u32Bytes key.length ++ key ++ encodeVal v)).length := by
                  simp only [List.length_append, u32Bytes_length]
                  omega
                rw [hbuf, writeAt_length hb, List.length_append, node_length]
                rw [node_length] at hcap
                refine ⟨?_, ?_⟩ <;> omega
        | notFound t =>
          rw [hf] at hcls
          have htb : t + 4 ≤ buf.length := readU32_some_bound hcls
          have hcb : ofs + 1 + 4 ≤ buf.length := readU32_some_bound heqc
          by_cases hcap : buf.length +
              (u32Bytes 0 ++ u32Bytes key.length ++ key ++ encodeVal v).length > bufsz
          · have hset : lite3_set buf ofs bufsz key v = ⟨ERR_CAPACITY, buf, none⟩ := by
              simp only [lite3_set, heq, heqc, hf, if_pos hcap]
            have hret : (lite3_set buf ofs bufsz key v).ret = ERR_CAPACITY := by rw [hset]
            have hbuf : (lite3_set buf ofs bufsz key v).buf = buf := by rw [hset]
            refine ⟨Or.inl hret, ?_, ?_⟩
            · intro _
              refine ⟨hbuf, ?_⟩
              rw [node_length] at hcap
              omega
            · intro h0
              have hc := hret.symm.trans h0
              simp [ERR_CAPACITY] at hc
          · have hset : lite3_set buf ofs bufsz key v =
                ⟨0, writeAt (writeAt
                    (buf ++ (u32Bytes 0 ++ u32Bytes key.length ++ key ++ encodeVal v))
                    t (u32Bytes buf.length)) (ofs+1) (u32Bytes (count+1)),
                 some (buf.length + 8 + key.length)⟩ := by
              simp only [lite3_set, heq, heqc, hf, if_neg hcap]
            have hret : (lite3_set buf ofs bufsz key v).ret = 0 := by rw [hset]
            have hbuf : (lite3_set buf ofs bufsz key v).buf = writeAt (writeAt
                    (buf ++ (u32Bytes 0 ++ u32Bytes key.length ++ key ++ encodeVal v))
                    t (u32Bytes buf.length)) (ofs+1) (u32Bytes (count+1)) := by rw [hset]
            refine ⟨Or.inr hret, ?_, ?_⟩
            · intro h0
              have hc := hret.symm.trans h0
              simp [ERR_CAPACITY] at hc
            · intro _
              have hb1 : t + (u32Bytes buf.length).length ≤
                  (buf ++ (u32Bytes 0 ++ u32Bytes key.length ++ key ++ encodeVal v)).length := by
                simp only [List.length_append, u32Bytes_length]
                omega
              have e1 := writeAt_length hb1
              have hb2 : ofs + 1 + (u32Bytes (count+1)).length ≤
                  (writeAt (buf ++ (u32Bytes 0 ++ u32Bytes key.length ++ key ++ encodeVal v))
                    t (u32Bytes buf.length)).length := by
                rw [e1]
                simp only [List.length_append, u32Bytes_length]
                omega
              rw [hbuf, writeAt_length hb2, e1, List.length_append, node_length]
              rw [node_length] at hcap
              refine ⟨?_, ?_⟩ <;> omega
  · intro hwf
    unfold wfArr at hwf
    split at hwf
    case h_2 => simp at hwf
    case h_1 heq =>
      split at hwf
      case h_2 => simp at hwf
      case h_1 count x heqc heqf =>
        obtain ⟨t, ht, ht0⟩ := arrChainOk_findTail buf count (ofs+5) hwf
        have htb : t + 4 ≤ buf.length := readU32_some_bound ht0
        have hcb : ofs + 1 + 4 ≤ buf.length := readU32_some_bound heqc
        by_cases hcap : buf.length + (u32Bytes 0 ++ encodeVal v).length > bufsz
        · have hset : lite3_arr_append buf ofs bufsz v = ⟨ERR_CAPACITY, buf, none⟩ := by
            simp only [lite3_arr_append, heq, heqc, ht, if_pos hcap]
          have hret : (lite3_arr_append buf ofs bufsz v).ret = ERR_CAPACITY := by rw [hset]
          have hbuf : (lite3_arr_append buf ofs bufsz v).buf = buf := by rw [hset]
          refine ⟨Or.inl hret, ?_, ?_⟩
          · intro _
            refine ⟨hbuf, ?_⟩
            rw [arrnode_length] at hcap
            omega
          · intro h0
            have hc := hret.symm.trans h0
            simp [ERR_CAPACITY] at hc
        · have hset : lite3_arr_append buf ofs bufsz v =
              ⟨0, writeAt (writeAt (buf ++ (u32Bytes 0 ++ encodeVal v))
                  t (u32Bytes buf.length)) (ofs+1) (u32Bytes (count+1)),
               some (buf.length + 4)⟩ := by
            simp only [lite3_arr_append, heq, heqc, ht, if_neg hcap]
          have hret : (lite3_arr_append buf ofs bufsz v).ret = 0 := by rw [hset]
          have hbuf : (lite3_arr_append buf ofs bufsz v).buf =
              writeAt (writeAt (buf ++ (u32Bytes 0 ++ encodeVal v))
                  t (u32Bytes buf.length)) (ofs+1) (u32Bytes (count+1)) := by rw [hset]
          refine ⟨Or.inr hret, ?_, ?_⟩
          · intro h0
            have hc := hret.symm.trans h0
            simp [ERR_CAPACITY] at hc
          · intro _
            have hb1 : t + (u32Bytes buf.length).length ≤
                (buf ++ (u32Bytes 0 ++ encodeVal v)).length := by
              simp only [List.length_append, u32Bytes_length]
              omega
            have e1 := writeAt_length hb1
            have hb2 : ofs + 1 + (u32Bytes (count+1)).length ≤
                (writeAt (buf ++ (u32Bytes 0 ++ encodeVal v))
                  t (u32Bytes buf.length)).length := by
              rw [e1]
              simp only [List.length_append, u32Bytes_length]
              omega
            rw [hbuf, writeAt_length hb2, e1, List.length_append, arrnode_length]
            rw [arrnode_length] at hcap
            refine ⟨?_, ?_⟩ <;> omega

/-- Witness for C3 at a concrete input: an 18-byte buffer holding an empty
root object at offset 0 and an empty array at offset 9, with `bufsz = 18`
(zero free space), so both a set and an append hit the capacity check. -/
theorem claim3_capacity_witness :
    (((lite3_set [6,0,0,0,0,0,0,0,0,7,0,0,0,0,0,0,0,0] 0 18 [97] (SetVal.vi64 5)).ret
        = ERR_CAPACITY ∨
      (lite3_set [6,0,0,0,0,0,0,0,0,7,0,0,0,0,0,0,0,0] 0 18 [97] (SetVal.vi64 5)).ret = 0) ∧
     ((lite3_arr_append [6,0,0,0,0,0,0,0,0,7,0,0,0,0,0,0,0,0] 9 18 (SetVal.vi64 5)).ret
        = ERR_CAPACITY ∨
      (lite3_arr_append [6,0,0,0,0,0,0,0,0,7,0,0,0,0,0,0,0,0] 9 18 (SetVal.vi64 5)).ret = 0)) := by
  have h1 := (claim3_bounded_capacity_atomic [6,0,0,0,0,0,0,0,0,7,0,0,0,0,0,0,0,0]
    0 18 [97] (SetVal.vi64 5) (by decide)).1 (by decide)
  have h2 := (claim3_bounded_capacity_atomic [6,0,0,0,0,0,0,0,0,7,0,0,0,0,0,0,0,0]
    9 18 [97] (SetVal.vi64 5) (by decide)).2 (by decide)
  exact ⟨h1.1, h2.1⟩

/- ===================== engine read model ===================== -/

/-- Interpret a u64 as a two's-complement int64. -/
def toI64 (n : Nat) : Int :=
  if n < 9223372036854775808 then (n : Int) else (n : Int) - 18446744073709551616

/-- Modelled from the spec: `lite3_str`, a string view holding a pointer
(`none` = NULL) and a length. -/
structure Lite3Str where
  ptr : Option Nat
  len : Nat
deriving DecidableEq

/-- Modelled from the spec: `LITE3_STR(buf, s)` resolves a view to a borrowed
pointer into the buffer, failing closed (NULL) when the view is NULL or out
of the buffer's bounds. -/
def LITE3_STR (buf : List Nat) (s : Lite3Str) : Option Nat :=
  match s.ptr with
  | none => none
  | some o => if o + s.len ≤ buf.length then some o else none

/-- Modelled from the spec: `LITE3_BYTES(buf, b)`, same resolution as
`LITE3_STR`. -/
def LITE3_BYTES (buf : List Nat) (s : Lite3Str) : Option Nat :=
  match s.ptr with
  | none => none
  | some o => if o + s.len ≤ buf.length then some o else none

/-- Modelled from the spec (4.2 Get-by-key): resolve the offset of the value
stored under `key` in the object at `ofs`. -/
def lite3_get_val (buf : List Nat) (ofs : Nat) (key : List Nat) : Except Int Nat :=
  match readByte buf ofs with
  | some 6 =>
    match readU32 buf (ofs+1) with
    | none => .error ERR_MALFORMED
    | some count =>
      match findKey buf key count (ofs+5) with
      | .found _ _ v => .ok v
      | .notFound _ => .error ERR_KEY
      | .bad => .error ERR_MALFORMED
  | some _ => .error ERR_TYPE
  | none => .error ERR_MALFORMED

/-- Walk `i` nodes down an array element chain and return the node offset. -/
def arrNth (buf : List Nat) : Nat → Nat → Nat → Option Nat
  | 0, _, _ => none
  | fuel+1, linkPos, i =>
    match readU32 buf linkPos with
    | none => none
    | some link =>
      if link = 0 then none
      else if i = 0 then some link
      else arrNth buf fuel link (i-1)

/-- Modelled from the spec (4.2 get-by-index): resolve the offset of the
array element `i` of the array at `ofs`. -/
def lite3_arr_get_val (buf : List Nat) (ofs : Nat) (i : Nat) : Except Int Nat :=
  match readByte buf ofs with
  | some 7 =>
    match readU32 buf (ofs+1) with
    | none => .error ERR_MALFORMED
    | some count =>
      if i < count then
        match arrNth buf count (ofs+5) i with
        | some node => .ok (node + 4)
        | none => .error ERR_MALFORMED
      else .error ERR_INDEX
  | some _ => .error ERR_TYPE
  | none => .error ERR_MALFORMED

/-- Result of a scalar bool get. -/
structure GetBoolRes where
  ret : Int
  out : Option Bool
deriving DecidableEq

/-- Result of a scalar i64 get. -/
structure GetI64Res where
  ret : Int
  out : Option Int
deriving DecidableEq

/-- Result of a scalar f64 get (the double is its bit pattern). -/
structure GetF64Res where
  ret : Int
  out : Option Nat
deriving DecidableEq

/-- Result of an object/array-offset get or a count query. -/
structure GetOfsRes where
  ret : Int
  out : Option Nat
deriving DecidableEq

/-- Result of a string/bytes get at the engine level: return code and the
view written through the `lite3_str` out-parameter (`none` = unwritten). -/
structure GetStrRes where
  ret : Int
  view : Option Lite3Str
deriving DecidableEq

/-- Read a bool value at a resolved offset. -/
def readBoolVal (buf : List Nat) (v : Nat) : GetBoolRes :=
  match readByte buf v with
  | some 1 =>
    match readByte buf (v+1) with
    | some b => ⟨0, some (b != 0)⟩
    | none => ⟨ERR_MALFORMED, none⟩
  | some _ => ⟨ERR_TYPE, none⟩
  | none => ⟨ERR_MALFORMED, none⟩

/-- Read an i64 value at a resolved offset. -/
def readI64Val (buf : List Nat) (v : Nat) : GetI64Res :=
  match readByte buf v with
  | some 2 =>
    match readU64 buf (v+1) with
    | some n => ⟨0, some (toI64 n)⟩
    | none => ⟨ERR_MALFORMED, none⟩
  | some _ => ⟨ERR_TYPE, none⟩
  | none => ⟨ERR_MALFORMED, none⟩

/-- Read an f64 bit pattern at a resolved offset. -/
def readF64Val (buf : List Nat) (v : Nat) : GetF64Res :=
  match readByte buf v with
  | some 3 =>
    match readU64 buf (v+1) with
    | some n => ⟨0, some n⟩
    | none => ⟨ERR_MALFORMED, none⟩
  | some _ => ⟨ERR_TYPE, none⟩
  | none => ⟨ERR_MALFORMED, none⟩

/-- Read a container offset (tag must equal `tag`) at a resolved offset. -/
def readOfsVal (buf : List Nat) (v tag : Nat) : GetOfsRes :=
  match readByte buf v with
  | some t => if t = tag then ⟨0, some v⟩ else ⟨ERR_TYPE, none⟩
  | none => ⟨ERR_MALFORMED, none⟩

/-- Build a string/bytes view (tag must equal `tag`) from a resolved value
lookup. -/
def viewGet (buf : List Nat) (r : Except Int Nat) (tag : Nat) : GetStrRes :=
  match r with
  | .error e => ⟨e, none⟩
  | .ok v =>
    match readByte buf v with
    | some t =>
      if t = tag then
        match readU32 buf (v+1) with
        | some len => ⟨0, some ⟨some (v+5), len⟩⟩
        | none => ⟨ERR_MALFORMED, none⟩
      else ⟨ERR_TYPE, none⟩
    | none => ⟨ERR_MALFORMED, none⟩

/-- Modelled from the spec: `lite3_get_bool`. -/
def lite3_get_bool (buf : List Nat) (ofs : Nat) (key : List Nat) : GetBoolRes :=
  match lite3_get_val buf ofs key with
  | .error e => ⟨e, none⟩
  | .ok v => readBoolVal buf v

/-- Modelled from the spec: `lite3_get_i64`. -/
def lite3_get_i64 (buf : List Nat) (ofs : Nat) (key : List Nat) : GetI64Res :=
  match lite3_get_val buf ofs key with
  | .error e => ⟨e, none⟩
  | .ok v => readI64Val buf v

/-- Modelled from the spec: `lite3_get_f64`. -/
def lite3_get_f64 (buf : List Nat) (ofs : Nat) (key : List Nat) : GetF64Res :=
  match lite3_get_val buf ofs key with
  | .error e => ⟨e, none⟩
  | .ok v => readF64Val buf v

/-- Modelled from the spec: `lite3_get_str`. -/
def lite3_get_str (buf : List Nat) (ofs : Nat) (key : List Nat) : GetStrRes :=
  viewGet buf (lite3_get_val buf ofs key) 4

/-- Modelled from the spec: `lite3_get_bytes`. -/
def lite3_get_bytes (buf : List Nat) (ofs : Nat) (key : List Nat) : GetStrRes :=
  viewGet buf (lite3_get_val buf ofs key) 5

/-- Modelled from the spec: `lite3_get_obj`. -/
def lite3_get_obj (buf : List Nat) (ofs : Nat) (key : List Nat) : GetOfsRes :=
  match lite3_get_val buf ofs key with
  | .error e => ⟨e, none⟩
  | .ok v => readOfsVal buf v 6

/-- Modelled from the spec: `lite3_get_arr`. -/
def lite3_get_arr (buf : List Nat) (ofs : Nat) (key : List Nat) : GetOfsRes :=
  match lite3_get_val buf ofs key with
  | .error e => ⟨e, none⟩
  | .ok v => readOfsVal buf v 7

/-- Modelled from the spec: `lite3_exists`. -/
def lite3_exists (buf : List Nat) (ofs : Nat) (key : List Nat) : Bool :=
  match lite3_get_val buf ofs key with
  | .ok _ => true
  | .error _ => false

/-- Modelled from the spec: `lite3_get_type` returns the type tag of the
value stored under `key`, or a negative error. -/
def lite3_get_type (buf : List Nat) (ofs : Nat) (key : List Nat) : Int :=
  match lite3_get_val buf ofs key with
  | .error e => e
  | .ok v =>
    match readByte buf v with
    | some t => (t : Int)
    | none => ERR_MALFORMED

/-- Modelled from the spec: `lite3_arr_get_bool`. -/
def lite3_arr_get_bool (buf : List Nat) (ofs i : Nat) : GetBoolRes :=
  match lite3_arr_get_val buf ofs i with
  | .error e => ⟨e, none⟩
  | .ok v => readBoolVal buf v

/-- Modelled from the spec: `lite3_arr_get_i64`. -/
def lite3_arr_get_i64 (buf : List Nat) (ofs i : Nat) : GetI64Res :=
  match lite3_arr_get_val buf ofs i with
  | .error e => ⟨e, none⟩
  | .ok v => readI64Val buf v

/-- Modelled from the spec: `lite3_arr_get_f64`. -/
def lite3_arr_get_f64 (buf : List Nat) (ofs i : Nat) : GetF64Res :=
  match lite3_arr_get_val buf ofs i with
  | .error e => ⟨e, none⟩
  | .ok v => readF64Val buf v

/-- Modelled from the spec: `lite3_arr_get_str`. -/
def lite3_arr_get_str (buf : List Nat) (ofs i : Nat) : GetStrRes :=
  viewGet buf (lite3_arr_get_val buf ofs i) 4

/-- Modelled from the spec: `lite3_arr_get_bytes`. -/
def lite3_arr_get_bytes (buf : List Nat) (ofs i : Nat) : GetStrRes :=
  viewGet buf (lite3_arr_get_val buf ofs i) 5

/-- Modelled from the spec: `lite3_arr_get_obj`. -/
def lite3_arr_get_obj (buf : List Nat) (ofs i : Nat) : GetOfsRes :=
  match lite3_arr_get_val buf ofs i with
  | .error e => ⟨e, none⟩
  | .ok v => readOfsVal buf v 6

/-- Modelled from the spec: `lite3_arr_get_arr`. -/
def lite3_arr_get_arr (buf : List Nat) (ofs i : Nat) : GetOfsRes :=
  match lite3_arr_get_val buf ofs i with
  | .error e => ⟨e, none⟩
  | .ok v => readOfsVal buf v 7

/-- Modelled from the spec: `lite3_arr_get_type`. -/
def lite3_arr_get_type (buf : List Nat) (ofs i : Nat) : Int :=
  match lite3_arr_get_val buf ofs i with
  | .error e => e
  | .ok v =>
    match readByte buf v with
    | some t => (t : Int)
    | none => ERR_MALFORMED

/-- Modelled from the spec (I2: containers record their own entry count):
`lite3_count` reads the container's count field. -/
def lite3_count (buf : List Nat) (ofs : Nat) : GetOfsRes :=
  match readByte buf ofs with
  | some 6 =>
    match readU32 buf (ofs+1) with
    | some c => ⟨0, some c⟩
    | none => ⟨ERR_MALFORMED, none⟩
  | some 7 =>
    match readU32 buf (ofs+1) with
    | some c => ⟨0, some c⟩
    | none => ⟨ERR_MALFORMED, none⟩
  | some _ => ⟨ERR_TYPE, none⟩
  | none => ⟨ERR_MALFORMED, none⟩

/- ===================== iterator model ===================== -/

/-- Modelled from the spec (4.4): `lite3_iter`, a small fixed-size cursor:
the container kind, the number of entries left to visit (the loop bound) and
the byte offset of the next entry node (the current byte position). -/
structure Lite3Iter where
  isObj : Bool
  remaining : Nat
  link : Nat
deriving DecidableEq

/-- Engine-level result of `lite3_iter_create`. -/
inductive IterCreateRes where
  | ok (it : Lite3Iter)
  | err (e : Int)
deriving DecidableEq

/-- Modelled from the spec (4.4 create): validates that `ofs` refers to an
Object or Array and initializes the cursor; fails if the offset is invalid
or not a container. -/
def lite3_iter_create (buf : List Nat) (ofs : Nat) : IterCreateRes :=
  match readByte buf ofs with
  | some 6 =>
    match readU32 buf (ofs+1), readU32 buf (ofs+5) with
    | some c, some f => .ok ⟨true, c, f⟩
    | _, _ => .err ERR_MALFORMED
  | some 7 =>
    match readU32 buf (ofs+1), readU32 buf (ofs+5) with
    | some c, some f => .ok ⟨false, c, f⟩
    | _, _ => .err ERR_MALFORMED
  | some _ => .err ERR_TYPE
  | none => .err ERR_MALFORMED

/-- Engine-level result of `lite3_iter_next`: one entry (key view for an
object, no key for an array, plus the value offset and advanced cursor), the
distinguished done signal, or an error. -/
inductive IterNextRes where
  | ok (keyPtr : Option Nat) (keyLen : Nat) (valOfs : Nat) (it : Lite3Iter)
  | done
  | err (e : Int)
deriving DecidableEq

/-- Modelled from the spec (4.4 next): advance one entry; yields the key
view and value offset for an object, only the value offset for an array;
returns the done signal when the loop bound is exhausted; fails closed on a
malformed chain. -/
def lite3_iter_next (buf : List Nat) (it : Lite3Iter) : IterNextRes :=
  if it.remaining = 0 then .done
  else if it.link = 0 then .err ERR_MALFORMED
  else
    match readU32 buf it.link with
    | none => .err ERR_MALFORMED
    | some nxt =>
      if it.isObj then
        match readU32 buf (it.link+4) with
        | none => .err ERR_MALFORMED
        | some klen =>
          .ok (some (it.link+8)) klen (it.link+8+klen) ⟨true, it.remaining-1, nxt⟩
      else
        .ok none 0 (it.link+4) ⟨false, it.remaining-1, nxt⟩

/- ===================== shim layer (lite3_shim.c) ===================== -/

/-- `shim_lite3_get_bool` from lite3_shim.c: pure delegation. -/
def shim_lite3_get_bool (buf : List Nat) (ofs : Nat) (key : List Nat) : GetBoolRes :=
  lite3_get_bool buf ofs key

/-- `shim_lite3_get_i64` from lite3_shim.c: pure delegation. -/
def shim_lite3_get_i64 (buf : List Nat) (ofs : Nat) (key : List Nat) : GetI64Res :=
  lite3_get_i64 buf ofs key

/-- `shim_lite3_get_f64` from lite3_shim.c: pure delegation. -/
def shim_lite3_get_f64 (buf : List Nat) (ofs : Nat) (key : List Nat) : GetF64Res :=
  lite3_get_f64 buf ofs key

/-- `shim_lite3_get_obj` from lite3_shim.c: pure delegation. -/
def shim_lite3_get_obj (buf : List Nat) (ofs : Nat) (key : List Nat) : GetOfsRes :=
  lite3_get_obj buf ofs key

/-- `shim_lite3_get_arr` from lite3_shim.c: pure delegation. -/
def shim_lite3_get_arr (buf : List Nat) (ofs : Nat) (key : List Nat) : GetOfsRes :=
  lite3_get_arr buf ofs key

/-- `shim_lite3_get_type` from lite3_shim.c: the enum-to-int cast is the
identity on the underlying value. -/
def shim_lite3_get_type (buf : List Nat) (ofs : Nat) (key : List Nat) : Int :=
  lite3_get_type buf ofs key

/-- `shim_lite3_exists` from lite3_shim.c: `lite3_exists(...) ? 1 : 0`. -/
def shim_lite3_exists (buf : List Nat) (ofs : Nat) (key : List Nat) : Int :=
  if lite3_exists buf ofs key then 1 else 0

/-- Result of the string/bytes view shims: return code and the two
out-parameters (`none` = never written; the inner option is the possibly
NULL pointer). -/
structure ShimViewRes where
  ret : Int
  out_ptr : Option (Option Nat)
  out_len : Option Nat
deriving DecidableEq

/-- `shim_lite3_get_str` from lite3_shim.c: on a non-negative return the
view is resolved via `LITE3_STR`; a NULL resolution yields `(NULL, 0)`; on a
negative return the out-parameters are untouched. -/
def shim_lite3_get_str (buf : List Nat) (ofs : Nat) (key : List Nat) : ShimViewRes :=
  let r := lite3_get_str buf ofs key
  if 0 ≤ r.ret then
    match r.view with
    | some s =>
      match LITE3_STR buf s with
      | some p => ⟨r.ret, some (some p), some s.len⟩
      | none => ⟨r.ret, some none, some 0⟩
    | none => ⟨r.ret, none, none⟩
  else ⟨r.ret, none, none⟩

/-- `shim_lite3_get_bytes` from lite3_shim.c. -/
def shim_lite3_get_bytes (buf : List Nat) (ofs : Nat) (key : List Nat) : ShimViewRes :=
  let r := lite3_get_bytes buf ofs key
  if 0 ≤ r.ret then
    match r.view with
    | some s =>
      match LITE3_BYTES buf s with
      | some p => ⟨r.ret, some (some p), some s.len⟩
      | none => ⟨r.ret, some none, some 0⟩
    | none => ⟨r.ret, none, none⟩
  else ⟨r.ret, none, none⟩

/-- `shim_lite3_set_null` from lite3_shim.c: pure delegation. -/
def shim_lite3_set_null (buf : List Nat) (ofs bufsz : Nat) (key : List Nat) : SetResult :=
  lite3_set_null buf ofs bufsz key

/-- `shim_lite3_set_bool` from lite3_shim.c: pure delegation. -/
def shim_lite3_set_bool (buf : List Nat) (ofs bufsz : Nat) (key : List Nat) (b : Bool) : SetResult :=
  lite3_set_bool buf ofs bufsz key b

/-- `shim_lite3_set_i64` from lite3_shim.c: pure delegation. -/
def shim_lite3_set_i64 (buf : List Nat) (ofs bufsz : Nat) (key : List Nat) (v : Int) : SetResult :=
  lite3_set_i64 buf ofs bufsz key v

/-- `shim_lite3_set_f64` from lite3_shim.c: pure delegation. -/
def shim_lite3_set_f64 (buf : List Nat) (ofs bufsz : Nat) (key : List Nat) (bits : Nat) : SetResult :=
  lite3_set_f64 buf ofs bufsz key bits

/-- `shim_lite3_set_str` from lite3_shim.c: delegates to `lite3_set_str_n`. -/
def shim_lite3_set_str (buf : List Nat) (ofs bufsz : Nat) (key s : List Nat) : SetResult :=
  lite3_set_str_n buf ofs bufsz key s

/-- `shim_lite3_set_bytes` from lite3_shim.c: pure delegation. -/
def shim_lite3_set_bytes (buf : List Nat) (ofs bufsz : Nat) (key d : List Nat) : SetResult :=
  lite3_set_bytes buf ofs bufsz key d

/-- `shim_lite3_set_obj` from lite3_shim.c: pure delegation. -/
def shim_lite3_set_obj (buf : List Nat) (ofs bufsz : Nat) (key : List Nat) : SetResult :=
  lite3_set_obj buf ofs bufsz key

/-- `shim_lite3_set_arr` from lite3_shim.c: pure delegation. -/
def shim_lite3_set_arr (buf : List Nat) (ofs bufsz : Nat) (key : List Nat) : SetResult :=
  lite3_set_arr buf ofs bufsz key

/-- `shim_lite3_arr_append_null` from lite3_shim.c: pure delegation. -/
def shim_lite3_arr_append_null (buf : List Nat) (ofs bufsz : Nat) : SetResult :=
  lite3_arr_append_null buf ofs bufsz

/-- `shim_lite3_arr_append_bool` from lite3_shim.c: pure delegation. -/
def shim_lite3_arr_append_bool (buf : List Nat) (ofs bufsz : Nat) (b : Bool) : SetResult :=
  lite3_arr_append_bool buf ofs bufsz b

/-- `shim_lite3_arr_append_i64` from lite3_shim.c: pure delegation. -/
def shim_lite3_arr_append_i64 (buf : List Nat) (ofs bufsz : Nat) (v : Int) : SetResult :=
  lite3_arr_append_i64 buf ofs bufsz v

/-- `shim_lite3_arr_append_f64` from lite3_shim.c: pure delegation. -/
def shim_lite3_arr_append_f64 (buf : List Nat) (ofs bufsz : Nat) (bits : Nat) : SetResult :=
  lite3_arr_append_f64 buf ofs bufsz bits

/-- `shim_lite3_arr_append_str` from lite3_shim.c: delegates to
`lite3_arr_append_str_n`. -/
def shim_lite3_arr_append_str (buf : List Nat) (ofs bufsz : Nat) (s : List Nat) : SetResult :=
  lite3_arr_append_str_n buf ofs bufsz s

/-- `shim_lite3_arr_append_bytes` from lite3_shim.c: pure delegation. -/
def shim_lite3_arr_append_bytes (buf : List Nat) (ofs bufsz : Nat) (d : List Nat) : SetResult :=
  lite3_arr_append_bytes buf ofs bufsz d

/-- `shim_lite3_arr_append_obj` from lite3_shim.c: pure delegation. -/
def shim_lite3_arr_append_obj (buf : List Nat) (ofs bufsz : Nat) : SetResult :=
  lite3_arr_append_obj buf ofs bufsz

/-- `shim_lite3_arr_append_arr` from lite3_shim.c: pure delegation. -/
def shim_lite3_arr_append_arr (buf : List Nat) (ofs bufsz : Nat) : SetResult :=
  lite3_arr_append_arr buf ofs bufsz

/-- `shim_lite3_arr_get_bool` from lite3_shim.c: pure delegation. -/
def shim_lite3_arr_get_bool (buf : List Nat) (ofs i : Nat) : GetBoolRes :=
  lite3_arr_get_bool buf ofs i

/-- `shim_lite3_arr_get_i64` from lite3_shim.c: pure delegation. -/
def shim_lite3_arr_get_i64 (buf : List Nat) (ofs i : Nat) : GetI64Res :=
  lite3_arr_get_i64 buf ofs i

/-- `shim_lite3_arr_get_f64` from lite3_shim.c: pure delegation. -/
def shim_lite3_arr_get_f64 (buf : List Nat) (ofs i : Nat) : GetF64Res :=
  lite3_arr_get_f64 buf ofs i

/-- `shim_lite3_arr_get_str` from lite3_shim.c: same view translation as
`shim_lite3_get_str`. -/
def shim_lite3_arr_get_str (buf : List Nat) (ofs i : Nat) : ShimViewRes :=
  let r := lite3_arr_get_str buf ofs i
  if 0 ≤ r.ret then
    match r.view with
    | some s =>
      match LITE3_STR buf s with
      | some p => ⟨r.ret, some (some p), some s.len⟩
      | none => ⟨r.ret, some none, some 0⟩
    | none => ⟨r.ret, none, none⟩
  else ⟨r.ret, none, none⟩

/-- `shim_lite3_arr_get_bytes` from lite3_shim.c. -/
def shim_lite3_arr_get_bytes (buf : List Nat) (ofs i : Nat) : ShimViewRes :=
  let r := lite3_arr_get_bytes buf ofs i
  if 0 ≤ r.ret then
    match r.view with
    | some s =>
      match LITE3_BYTES buf s with
      | some p => ⟨r.ret, some (some p), some s.len⟩
      | none => ⟨r.ret, some none, some 0⟩
    | none => ⟨r.ret, none, none⟩
  else ⟨r.ret, none, none⟩

/-- `shim_lite3_arr_get_obj` from lite3_shim.c: pure delegation. -/
def shim_lite3_arr_get_obj (buf : List Nat) (ofs i : Nat) : GetOfsRes :=
  lite3_arr_get_obj buf ofs i

/-- `shim_lite3_arr_get_arr` from lite3_shim.c: pure delegation. -/
def shim_lite3_arr_get_arr (buf : List Nat) (ofs i : Nat) : GetOfsRes :=
  lite3_arr_get_arr buf ofs i

/-- `shim_lite3_arr_get_type` from lite3_shim.c: identity cast. -/
def shim_lite3_arr_get_type (buf : List Nat) (ofs i : Nat) : Int :=
  lite3_arr_get_type buf ofs i

/-- `shim_lite3_count` from lite3_shim.c: pure delegation (the const cast in
the C source does not change the buffer). -/
def shim_lite3_count (buf : List Nat) (ofs : Nat) : GetOfsRes :=
  lite3_count buf ofs

/-- Result of `shim_lite3_iter_create`: return code, the cursor written
through the out pointer, and the buffer after the call (the buffer is
`const`; the model records its final contents to state non-mutation). -/
structure ShimIterCreateRes where
  ret : Int
  iter : Option Lite3Iter
  buf : List Nat
deriving DecidableEq

/-- `shim_lite3_iter_create` from lite3_shim.c: delegation (the
`lite3_iter *` cast is representation-only). -/
def shim_lite3_iter_create (buf : List Nat) (ofs : Nat) : ShimIterCreateRes :=
  match lite3_iter_create buf ofs with
  | .ok it => ⟨0, some it, buf⟩
  | .err e => ⟨e, none, buf⟩

/-- Result of `shim_lite3_iter_next`: return code, the three out-parameters
(`none` = never written), the cursor after the call, and the (unchanged)
buffer. -/
structure ShimIterNextRes where
  ret : Int
  key_ptr : Option (Option Nat)
  key_len : Option Nat
  val_ofs : Option Nat
  iter : Lite3Iter
  buf : List Nat
deriving DecidableEq

/-- `shim_lite3_iter_next` from lite3_shim.c: maps the engine's done signal
to `1`, passes errors through, and on success writes `*val_ofs` and
translates the key view (`*key_ptr = LITE3_STR(buf, key)`, `*key_len =
key.len` for an object entry; `NULL`/`0` for an array entry). -/
def shim_lite3_iter_next (buf : List Nat) (it : Lite3Iter) : ShimIterNextRes :=
  match lite3_iter_next buf it with
  | .done => ⟨1, none, none, none, it, buf⟩
  | .err e => ⟨e, none, none, none, it, buf⟩
  | .ok kp klen v it2 =>
    match kp with
    | some kofs => ⟨0, some (LITE3_STR buf ⟨some kofs, klen⟩), some klen, some v, it2, buf⟩
    | none => ⟨0, some none, some 0, some v, it2, buf⟩

/-- `shim_lite3_json_dec` from lite3_shim.c: pure delegation to the
configuration's `lite3_json_dec` (in this repository, the disabled stub). -/
def shim_lite3_json_dec (buf : List Nat) (out_buflen bufsz : Nat)
    (js : List Nat) (jl e : Nat) : JsonDisabled.DecResult :=
  JsonDisabled.lite3_json_dec buf out_buflen bufsz js jl e

/-- `shim_lite3_json_enc` from lite3_shim.c: pure delegation. -/
def shim_lite3_json_enc (buf : List Nat) (buflen ofs : Nat)
    (out_len : Option Nat) (e : Nat) : JsonDisabled.EncResult :=
  JsonDisabled.lite3_json_enc buf buflen ofs out_len e

/-- `shim_lite3_json_enc_pretty` from lite3_shim.c: pure delegation. -/
def shim_lite3_json_enc_pretty (buf : List Nat) (buflen ofs : Nat)
    (out_len : Option Nat) (e : Nat) : JsonDisabled.EncResult :=
  JsonDisabled.lite3_json_enc_pretty buf buflen ofs out_len e

/-- `shim_lite3_json_enc_buf` from lite3_shim.c: pure delegation. -/
def shim_lite3_json_enc_buf (buf : List Nat) (buflen ofs : Nat)
    (json_buf : List Nat) (json_bufsz e : Nat) : JsonDisabled.EncBufResult :=
  JsonDisabled.lite3_json_enc_buf buf buflen ofs json_buf json_bufsz e


/- ===================== context API model (lite3_context_api.h) ===================== -/

/-- Modelled from the spec (4.3 Growable Container): `lite3_ctx` owns a
resizable byte region: the used bytes and the current capacity (`buflen` is
the length of `buf`).  The model's allocation always succeeds; the
out-of-memory path of the C allocator has no counterpart in the shallow
embedding. -/
structure Lite3Ctx where
  buf : List Nat
  bufsz : Nat
deriving DecidableEq

/-- Default capacity of a fresh context (an implementation choice the spec
leaves open). -/
def LITE3_CTX_DEFAULT_BUFSZ : Nat := 4096

/-- Modelled from the spec: `lite3_ctx_create` allocates an empty owned
container (`none` would be the allocation-failure NULL; the model's
allocation succeeds). -/
def lite3_ctx_create : Option Lite3Ctx :=
  some ⟨[], LITE3_CTX_DEFAULT_BUFSZ⟩

/-- Modelled from the spec: `lite3_ctx_create_with_size`. -/
def lite3_ctx_create_with_size (bufsz : Nat) : Option Lite3Ctx :=
  some ⟨[], bufsz⟩

/-- Modelled from the spec (4.3: importing an externally supplied encoded
buffer as initial content, copy-in): `lite3_ctx_create_from_buf`. -/
def lite3_ctx_create_from_buf (buf : List Nat) : Option Lite3Ctx :=
  some ⟨buf, buf.length⟩

/-- Modelled from the spec: `lite3_ctx_destroy` releases the owned region;
in the shallow embedding this is the trivial effect. -/
def lite3_ctx_destroy (_ctx : Lite3Ctx) : Unit := ()

/-- Result of a context-mode mutating call: return code, the container
after the call, and the written value's offset (for `*out_ofs`). -/
structure CtxSetRes where
  ret : Int
  ctx : Lite3Ctx
  valOfs : Option Nat
deriving DecidableEq

/-- Modelled from the spec (4.3): run a bounded-mode mutation against the
owned region; on `CapacityExceeded`, reallocate to a capacity at least
sufficient for the operation (doubling with a floor of `need`) and retry
against the grown region. -/
def ctxApply (ctx : Lite3Ctx) (need : Nat) (op : List Nat → Nat → SetResult) :
    SetResult × Nat :=
  let r := op ctx.buf ctx.bufsz
  if r.ret = ERR_CAPACITY then
    let newsz := max (2 * ctx.bufsz) need
    (op ctx.buf newsz, newsz)
  else (r, ctx.bufsz)

/-- Modelled from the spec: context-mode set-by-key, wrapping `lite3_set`
with grow-and-retry. -/
def lite3_ctx_set (ctx : Lite3Ctx) (ofs : Nat) (key : List Nat) (v : SetVal) :
    CtxSetRes :=
  let p := ctxApply ctx (ctx.buf.length + 8 + key.length + (encodeVal v).length)
    (fun b s => lite3_set b ofs s key v)
  ⟨p.1.ret, ⟨p.1.buf, p.2⟩, p.1.valOfs⟩

/-- Modelled from the spec: context-mode array append, wrapping
`lite3_arr_append` with grow-and-retry. -/
def lite3_ctx_arr_append (ctx : Lite3Ctx) (ofs : Nat) (v : SetVal) : CtxSetRes :=
  let p := ctxApply ctx (ctx.buf.length + 4 + (encodeVal v).length)
    (fun b s => lite3_arr_append b ofs s v)
  ⟨p.1.ret, ⟨p.1.buf, p.2⟩, p.1.valOfs⟩

/-- Modelled from the spec: `lite3_ctx_init_obj` initializes the container
with an empty root object at offset 0. -/
def lite3_ctx_init_obj (ctx : Lite3Ctx) : Int × Lite3Ctx :=
  (0, ⟨6 :: (u32Bytes 0 ++ u32Bytes 0), max ctx.bufsz 9⟩)

/-- Modelled from the spec: `lite3_ctx_init_arr`. -/
def lite3_ctx_init_arr (ctx : Lite3Ctx) : Int × Lite3Ctx :=
  (0, ⟨7 :: (u32Bytes 0 ++ u32Bytes 0), max ctx.bufsz 9⟩)

/-- Modelled from the spec: `lite3_ctx_set_null`. -/
def lite3_ctx_set_null (ctx : Lite3Ctx) (ofs : Nat) (key : List Nat) : CtxSetRes :=
  lite3_ctx_set ctx ofs key .vnull

/-- Modelled from the spec: `lite3_ctx_set_bool`. -/
def lite3_ctx_set_bool (ctx : Lite3Ctx) (ofs : Nat) (key : List Nat) (b : Bool) : CtxSetRes :=
  lite3_ctx_set ctx ofs key (.vbool b)

/-- Modelled from the spec: `lite3_ctx_set_i64`. -/
def lite3_ctx_set_i64 (ctx : Lite3Ctx) (ofs : Nat) (key : List Nat) (v : Int) : CtxSetRes :=
  lite3_ctx_set ctx ofs key (.vi64 v)

/-- Modelled from the spec: `lite3_ctx_set_f64` (the double is its bit
pattern). -/
def lite3_ctx_set_f64 (ctx : Lite3Ctx) (ofs : Nat) (key : List Nat) (bits : Nat) : CtxSetRes :=
  lite3_ctx_set ctx ofs key (.vf64 bits)

/-- Modelled from the spec: `lite3_ctx_set_str_n`. -/
def lite3_ctx_set_str_n (ctx : Lite3Ctx) (ofs : Nat) (key s : List Nat) : CtxSetRes :=
  lite3_ctx_set ctx ofs key (.vstr s)

/-- Modelled from the spec: `lite3_ctx_set_bytes`. -/
def lite3_ctx_set_bytes (ctx : Lite3Ctx) (ofs : Nat) (key d : List Nat) : CtxSetRes :=
  lite3_ctx_set ctx ofs key (.vbytes d)

/-- Modelled from the spec: `lite3_ctx_set_obj`. -/
def lite3_ctx_set_obj (ctx : Lite3Ctx) (ofs : Nat) (key : List Nat) : CtxSetRes :=
  lite3_ctx_set ctx ofs key .vobj

/-- Modelled from the spec: `lite3_ctx_set_arr`. -/
def lite3_ctx_set_arr (ctx : Lite3Ctx) (ofs : Nat) (key : List Nat) : CtxSetRes :=
  lite3_ctx_set ctx ofs key .varr

/-- Modelled from the spec: `lite3_ctx_arr_append_null`. -/
def lite3_ctx_arr_append_null (ctx : Lite3Ctx) (ofs : Nat) : CtxSetRes :=
  lite3_ctx_arr_append ctx ofs .vnull

/-- Modelled from the spec: `lite3_ctx_arr_append_bool`. -/
def lite3_ctx_arr_append_bool (ctx : Lite3Ctx) (ofs : Nat) (b : Bool) : CtxSetRes :=
  lite3_ctx_arr_append ctx ofs (.vbool b)

/-- Modelled from the spec: `lite3_ctx_arr_append_i64`. -/
def lite3_ctx_arr_append_i64 (ctx : Lite3Ctx) (ofs : Nat) (v : Int) : CtxSetRes :=
  lite3_ctx_arr_append ctx ofs (.vi64 v)

/-- Modelled from the spec: `lite3_ctx_arr_append_f64`. -/
def lite3_ctx_arr_append_f64 (ctx : Lite3Ctx) (ofs : Nat) (bits : Nat) : CtxSetRes :=
  lite3_ctx_arr_append ctx ofs (.vf64 bits)

/-- Modelled from the spec: `lite3_ctx_arr_append_str_n`. -/
def lite3_ctx_arr_append_str_n (ctx : Lite3Ctx) (ofs : Nat) (s : List Nat) : CtxSetRes :=
  lite3_ctx_arr_append ctx ofs (.vstr s)

/-- Modelled from the spec: `lite3_ctx_arr_append_bytes`. -/
def lite3_ctx_arr_append_bytes (ctx : Lite3Ctx) (ofs : Nat) (d : List Nat) : CtxSetRes :=
  lite3_ctx_arr_append ctx ofs (.vbytes d)

/-- Modelled from the spec: `lite3_ctx_arr_append_obj`. -/
def lite3_ctx_arr_append_obj (ctx : Lite3Ctx) (ofs : Nat) : CtxSetRes :=
  lite3_ctx_arr_append ctx ofs .vobj

/-- Modelled from the spec: `lite3_ctx_arr_append_arr`. -/
def lite3_ctx_arr_append_arr (ctx : Lite3Ctx) (ofs : Nat) : CtxSetRes :=
  lite3_ctx_arr_append ctx ofs .varr

/-- Modelled from the spec: `lite3_ctx_get_bool` reads from the owned
region. -/
def lite3_ctx_get_bool (ctx : Lite3Ctx) (ofs : Nat) (key : List Nat) : GetBoolRes :=
  lite3_get_bool ctx.buf ofs key

/-- Modelled from the spec: `lite3_ctx_get_i64`. -/
def lite3_ctx_get_i64 (ctx : Lite3Ctx) (ofs : Nat) (key : List Nat) : GetI64Res :=
  lite3_get_i64 ctx.buf ofs key

/-- Modelled from the spec: `lite3_ctx_get_f64`. -/
def lite3_ctx_get_f64 (ctx : Lite3Ctx) (ofs : Nat) (key : List Nat) : GetF64Res :=
  lite3_get_f64 ctx.buf ofs key

/-- Modelled from the spec: `lite3_ctx_get_str`. -/
def lite3_ctx_get_str (ctx : Lite3Ctx) (ofs : Nat) (key : List Nat) : GetStrRes :=
  lite3_get_str ctx.buf ofs key

/-- Modelled from the spec: `lite3_ctx_get_bytes`. -/
def lite3_ctx_get_bytes (ctx : Lite3Ctx) (ofs : Nat) (key : List Nat) : GetStrRes :=
  lite3_get_bytes ctx.buf ofs key

/-- Modelled from the spec: `lite3_ctx_get_obj`. -/
def lite3_ctx_get_obj (ctx : Lite3Ctx) (ofs : Nat) (key : List Nat) : GetOfsRes :=
  lite3_get_obj ctx.buf ofs key

/-- Modelled from the spec: `lite3_ctx_get_arr`. -/
def lite3_ctx_get_arr (ctx : Lite3Ctx) (ofs : Nat) (key : List Nat) : GetOfsRes :=
  lite3_get_arr ctx.buf ofs key

/-- Modelled from the spec: `lite3_ctx_get_type`. -/
def lite3_ctx_get_type (ctx : Lite3Ctx) (ofs : Nat) (key : List Nat) : Int :=
  lite3_get_type ctx.buf ofs key

/-- Modelled from the spec: `lite3_ctx_exists`. -/
def lite3_ctx_exists (ctx : Lite3Ctx) (ofs : Nat) (key : List Nat) : Bool :=
  lite3_exists ctx.buf ofs key

/-- Modelled from the spec: `lite3_ctx_arr_get_bool`. -/
def lite3_ctx_arr_get_bool (ctx : Lite3Ctx) (ofs i : Nat) : GetBoolRes :=
  lite3_arr_get_bool ctx.buf ofs i

/-- Modelled from the spec: `lite3_ctx_arr_get_i64`. -/
def lite3_ctx_arr_get_i64 (ctx : Lite3Ctx) (ofs i : Nat) : GetI64Res :=
  lite3_arr_get_i64 ctx.buf ofs i

/-- Modelled from the spec: `lite3_ctx_arr_get_f64`. -/
def lite3_ctx_arr_get_f64 (ctx : Lite3Ctx) (ofs i : Nat) : GetF64Res :=
  lite3_arr_get_f64 ctx.buf ofs i

/-- Modelled from the spec: `lite3_ctx_arr_get_str`. -/
def lite3_ctx_arr_get_str (ctx : Lite3Ctx) (ofs i : Nat) : GetStrRes :=
  lite3_arr_get_str ctx.buf ofs i

/-- Modelled from the spec: `lite3_ctx_arr_get_bytes`. -/
def lite3_ctx_arr_get_bytes (ctx : Lite3Ctx) (ofs i : Nat) : GetStrRes :=
  lite3_arr_get_bytes ctx.buf ofs i

/-- Modelled from the spec: `lite3_ctx_arr_get_obj`. -/
def lite3_ctx_arr_get_obj (ctx : Lite3Ctx) (ofs i : Nat) : GetOfsRes :=
  lite3_arr_get_obj ctx.buf ofs i

/-- Modelled from the spec: `lite3_ctx_arr_get_arr`. -/
def lite3_ctx_arr_get_arr (ctx : Lite3Ctx) (ofs i : Nat) : GetOfsRes :=
  lite3_arr_get_arr ctx.buf ofs i

/-- Modelled from the spec: `lite3_ctx_arr_get_type`. -/
def lite3_ctx_arr_get_type (ctx : Lite3Ctx) (ofs i : Nat) : Int :=
  lite3_arr_get_type ctx.buf ofs i

/-- Modelled from the spec: `lite3_ctx_count`. -/
def lite3_ctx_count (ctx : Lite3Ctx) (ofs : Nat) : GetOfsRes :=
  lite3_count ctx.buf ofs

/-- Modelled from the spec (4.3: importing an externally supplied encoded
buffer, copy-in): `lite3_ctx_import_from_buf` replaces the container's
content, growing its capacity as needed. -/
def lite3_ctx_import_from_buf (ctx : Lite3Ctx) (buf : List Nat) : Int × Lite3Ctx :=
  (0, ⟨buf, max ctx.bufsz buf.length⟩)

/-- Modelled from the spec: `lite3_ctx_json_dec` in this repository's
configuration, where the JSON codec is the disabled stub: the feature-
disabled error, the container untouched, `errno = EINVAL`. -/
def lite3_ctx_json_dec (ctx : Lite3Ctx) (_json_str : List Nat) (_json_len : Nat)
    (_e : Nat) : Int × Lite3Ctx × Nat :=
  (-1, ctx, EINVAL)

/- ---- context shims (lite3_shim.c lines 316-433) ---- -/

/-- `shim_lite3_ctx_create` from lite3_shim.c: pure delegation. -/
def shim_lite3_ctx_create : Option Lite3Ctx := lite3_ctx_create

/-- `shim_lite3_ctx_create_with_size` from lite3_shim.c: pure delegation. -/
def shim_lite3_ctx_create_with_size (bufsz : Nat) : Option Lite3Ctx :=
  lite3_ctx_create_with_size bufsz

/-- `shim_lite3_ctx_create_from_buf` from lite3_shim.c: pure delegation. -/
def shim_lite3_ctx_create_from_buf (buf : List Nat) : Option Lite3Ctx :=
  lite3_ctx_create_from_buf buf

/-- `shim_lite3_ctx_destroy` from lite3_shim.c: pure delegation. -/
def shim_lite3_ctx_destroy (ctx : Lite3Ctx) : Unit := lite3_ctx_destroy ctx

/-- `shim_lite3_ctx_buf` from lite3_shim.c: returns `ctx->buf` (a direct
field read; no engine function is wrapped). -/
def shim_lite3_ctx_buf (ctx : Lite3Ctx) : List Nat := ctx.buf

/-- `shim_lite3_ctx_buflen` from lite3_shim.c: returns `ctx->buflen`. -/
def shim_lite3_ctx_buflen (ctx : Lite3Ctx) : Nat := ctx.buf.length

/-- `shim_lite3_ctx_bufsz` from lite3_shim.c: returns `ctx->bufsz`. -/
def shim_lite3_ctx_bufsz (ctx : Lite3Ctx) : Nat := ctx.bufsz

/-- `shim_lite3_ctx_init_obj` from lite3_shim.c: pure delegation. -/
def shim_lite3_ctx_init_obj (ctx : Lite3Ctx) : Int × Lite3Ctx :=
  lite3_ctx_init_obj ctx

/-- `shim_lite3_ctx_init_arr` from lite3_shim.c: pure delegation. -/
def shim_lite3_ctx_init_arr (ctx : Lite3Ctx) : Int × Lite3Ctx :=
  lite3_ctx_init_arr ctx

/-- `shim_lite3_ctx_set_null` from lite3_shim.c: pure delegation. -/
def shim_lite3_ctx_set_null (ctx : Lite3Ctx) (ofs : Nat) (key : List Nat) : CtxSetRes :=
  lite3_ctx_set_null ctx ofs key

/-- `shim_lite3_ctx_set_bool` from lite3_shim.c: pure delegation. -/
def shim_lite3_ctx_set_bool (ctx : Lite3Ctx) (ofs : Nat) (key : List Nat) (b : Bool) : CtxSetRes :=
  lite3_ctx_set_bool ctx ofs key b

/-- `shim_lite3_ctx_set_i64` from lite3_shim.c: pure delegation. -/
def shim_lite3_ctx_set_i64 (ctx : Lite3Ctx) (ofs : Nat) (key : List Nat) (v : Int) : CtxSetRes :=
  lite3_ctx_set_i64 ctx ofs key v

/-- `shim_lite3_ctx_set_f64` from lite3_shim.c: pure delegation. -/
def shim_lite3_ctx_set_f64 (ctx : Lite3Ctx) (ofs : Nat) (key : List Nat) (bits : Nat) : CtxSetRes :=
  lite3_ctx_set_f64 ctx ofs key bits

/-- `shim_lite3_ctx_set_str` from lite3_shim.c: delegates to
`lite3_ctx_set_str_n`. -/
def shim_lite3_ctx_set_str (ctx : Lite3Ctx) (ofs : Nat) (key s : List Nat) : CtxSetRes :=
  lite3_ctx_set_str_n ctx ofs key s

/-- `shim_lite3_ctx_set_bytes` from lite3_shim.c: pure delegation. -/
def shim_lite3_ctx_set_bytes (ctx : Lite3Ctx) (ofs : Nat) (key d : List Nat) : CtxSetRes :=
  lite3_ctx_set_bytes ctx ofs key d

/-- `shim_lite3_ctx_set_obj` from lite3_shim.c: pure delegation. -/
def shim_lite3_ctx_set_obj (ctx : Lite3Ctx) (ofs : Nat) (key : List Nat) : CtxSetRes :=
  lite3_ctx_set_obj ctx ofs key

/-- `shim_lite3_ctx_set_arr` from lite3_shim.c: pure delegation. -/
def shim_lite3_ctx_set_arr (ctx : Lite3Ctx) (ofs : Nat) (key : List Nat) : CtxSetRes :=
  lite3_ctx_set_arr ctx ofs key

/-- `shim_lite3_ctx_get_type` from lite3_shim.c: identity cast. -/
def shim_lite3_ctx_get_type (ctx : Lite3Ctx) (ofs : Nat) (key : List Nat) : Int :=
  lite3_ctx_get_type ctx ofs key

/-- `shim_lite3_ctx_exists` from lite3_shim.c:
`lite3_ctx_exists(...) ? 1 : 0`. -/
def shim_lite3_ctx_exists (ctx : Lite3Ctx) (ofs : Nat) (key : List Nat) : Int :=
  if lite3_ctx_exists ctx ofs key then 1 else 0

/-- `shim_lite3_ctx_get_bool` from lite3_shim.c: pure delegation. -/
def shim_lite3_ctx_get_bool (ctx : Lite3Ctx) (ofs : Nat) (key : List Nat) : GetBoolRes :=
  lite3_ctx_get_bool ctx ofs key

/-- `shim_lite3_ctx_get_i64` from lite3_shim.c: pure delegation. -/
def shim_lite3_ctx_get_i64 (ctx : Lite3Ctx) (ofs : Nat) (key : List Nat) : GetI64Res :=
  lite3_ctx_get_i64 ctx ofs key

/-- `shim_lite3_ctx_get_f64` from lite3_shim.c: pure delegation. -/
def shim_lite3_ctx_get_f64 (ctx : Lite3Ctx) (ofs : Nat) (key : List Nat) : GetF64Res :=
  lite3_ctx_get_f64 ctx ofs key

/-- `shim_lite3_ctx_get_str` from lite3_shim.c: the same view translation as
`shim_lite3_get_str`, resolving against `ctx->buf`. -/
def shim_lite3_ctx_get_str (ctx : Lite3Ctx) (ofs : Nat) (key : List Nat) : ShimViewRes :=
  let r := lite3_ctx_get_str ctx ofs key
  if 0 ≤ r.ret then
    match r.view with
    | some s =>
      match LITE3_STR ctx.buf s with
      | some p => ⟨r.ret, some (some p), some s.len⟩
      | none => ⟨r.ret, some none, some 0⟩
    | none => ⟨r.ret, none, none⟩
  else ⟨r.ret, none, none⟩

/-- `shim_lite3_ctx_get_bytes` from lite3_shim.c. -/
def shim_lite3_ctx_get_bytes (ctx : Lite3Ctx) (ofs : Nat) (key : List Nat) : ShimViewRes :=
  let r := lite3_ctx_get_bytes ctx ofs key
  if 0 ≤ r.ret then
    match r.view with
    | some s =>
      match LITE3_BYTES ctx.buf s with
      | some p => ⟨r.ret, some (some p), some s.len⟩
      | none => ⟨r.ret, some none, some 0⟩
    | none => ⟨r.ret, none, none⟩
  else ⟨r.ret, none, none⟩

/-- `shim_lite3_ctx_get_obj` from lite3_shim.c: pure delegation. -/
def shim_lite3_ctx_get_obj (ctx : Lite3Ctx) (ofs : Nat) (key : List Nat) : GetOfsRes :=
  lite3_ctx_get_obj ctx ofs key

/-- `shim_lite3_ctx_get_arr` from lite3_shim.c: pure delegation. -/
def shim_lite3_ctx_get_arr (ctx : Lite3Ctx) (ofs : Nat) (key : List Nat) : GetOfsRes :=
  lite3_ctx_get_arr ctx ofs key

/-- `shim_lite3_ctx_arr_append_null` from lite3_shim.c: pure delegation. -/
def shim_lite3_ctx_arr_append_null (ctx : Lite3Ctx) (ofs : Nat) : CtxSetRes :=
  lite3_ctx_arr_append_null ctx ofs

/-- `shim_lite3_ctx_arr_append_bool` from lite3_shim.c: pure delegation. -/
def shim_lite3_ctx_arr_append_bool (ctx : Lite3Ctx) (ofs : Nat) (b : Bool) : CtxSetRes :=
  lite3_ctx_arr_append_bool ctx ofs b

/-- `shim_lite3_ctx_arr_append_i64` from lite3_shim.c: pure delegation. -/
def shim_lite3_ctx_arr_append_i64 (ctx : Lite3Ctx) (ofs : Nat) (v : Int) : CtxSetRes :=
  lite3_ctx_arr_append_i64 ctx ofs v

/-- `shim_lite3_ctx_arr_append_f64` from lite3_shim.c: pure delegation. -/
def shim_lite3_ctx_arr_append_f64 (ctx : Lite3Ctx) (ofs : Nat) (bits : Nat) : CtxSetRes :=
  lite3_ctx_arr_append_f64 ctx ofs bits

/-- `shim_lite3_ctx_arr_append_str` from lite3_shim.c: delegates to
`lite3_ctx_arr_append_str_n`. -/
def shim_lite3_ctx_arr_append_str (ctx : Lite3Ctx) (ofs : Nat) (s : List Nat) : CtxSetRes :=
  lite3_ctx_arr_append_str_n ctx ofs s

/-- `shim_lite3_ctx_arr_append_bytes` from lite3_shim.c: pure delegation. -/
def shim_lite3_ctx_arr_append_bytes (ctx : Lite3Ctx) (ofs : Nat) (d : List Nat) : CtxSetRes :=
  lite3_ctx_arr_append_bytes ctx ofs d

/-- `shim_lite3_ctx_arr_append_obj` from lite3_shim.c: pure delegation. -/
def shim_lite3_ctx_arr_append_obj (ctx : Lite3Ctx) (ofs : Nat) : CtxSetRes :=
  lite3_ctx_arr_append_obj ctx ofs

/-- `shim_lite3_ctx_arr_append_arr` from lite3_shim.c: pure delegation. -/
def shim_lite3_ctx_arr_append_arr (ctx : Lite3Ctx) (ofs : Nat) : CtxSetRes :=
  lite3_ctx_arr_append_arr ctx ofs

/-- `shim_lite3_ctx_arr_get_bool` from lite3_shim.c: pure delegation. -/
def shim_lite3_ctx_arr_get_bool (ctx : Lite3Ctx) (ofs i : Nat) : GetBoolRes :=
  lite3_ctx_arr_get_bool ctx ofs i

/-- `shim_lite3_ctx_arr_get_i64` from lite3_shim.c: pure delegation. -/
def shim_lite3_ctx_arr_get_i64 (ctx : Lite3Ctx) (ofs i : Nat) : GetI64Res :=
  lite3_ctx_arr_get_i64 ctx ofs i

/-- `shim_lite3_ctx_arr_get_f64` from lite3_shim.c: pure delegation. -/
def shim_lite3_ctx_arr_get_f64 (ctx : Lite3Ctx) (ofs i : Nat) : GetF64Res :=
  lite3_ctx_arr_get_f64 ctx ofs i

/-- `shim_lite3_ctx_arr_get_str` from lite3_shim.c: view translation against
`ctx->buf`. -/
def shim_lite3_ctx_arr_get_str (ctx : Lite3Ctx) (ofs i : Nat) : ShimViewRes :=
  let r := lite3_ctx_arr_get_str ctx ofs i
  if 0 ≤ r.ret then
    match r.view with
    | some s =>
      match LITE3_STR ctx.buf s with
      | some p => ⟨r.ret, some (some p), some s.len⟩
      | none => ⟨r.ret, some none, some 0⟩
    | none => ⟨r.ret, none, none⟩
  else ⟨r.ret, none, none⟩

/-- `shim_lite3_ctx_arr_get_bytes` from lite3_shim.c. -/
def shim_lite3_ctx_arr_get_bytes (ctx : Lite3Ctx) (ofs i : Nat) : ShimViewRes :=
  let r := lite3_ctx_arr_get_bytes ctx ofs i
  if 0 ≤ r.ret then
    match r.view with
    | some s =>
      match LITE3_BYTES ctx.buf s with
      | some p => ⟨r.ret, some (some p), some s.len⟩
      | none => ⟨r.ret, some none, some 0⟩
    | none => ⟨r.ret, none, none⟩
  else ⟨r.ret, none, none⟩

/-- `shim_lite3_ctx_arr_get_obj` from lite3_shim.c: pure delegation. -/
def shim_lite3_ctx_arr_get_obj (ctx : Lite3Ctx) (ofs i : Nat) : GetOfsRes :=
  lite3_ctx_arr_get_obj ctx ofs i

/-- `shim_lite3_ctx_arr_get_arr` from lite3_shim.c: pure delegation. -/
def shim_lite3_ctx_arr_get_arr (ctx : Lite3Ctx) (ofs i : Nat) : GetOfsRes :=
  lite3_ctx_arr_get_arr ctx ofs i

/-- `shim_lite3_ctx_arr_get_type` from lite3_shim.c: identity cast. -/
def shim_lite3_ctx_arr_get_type (ctx : Lite3Ctx) (ofs i : Nat) : Int :=
  lite3_ctx_arr_get_type ctx ofs i

/-- `shim_lite3_ctx_count` from lite3_shim.c: pure delegation. -/
def shim_lite3_ctx_count (ctx : Lite3Ctx) (ofs : Nat) : GetOfsRes :=
  lite3_ctx_count ctx ofs

/-- `shim_lite3_ctx_import_from_buf` from lite3_shim.c: pure delegation. -/
def shim_lite3_ctx_import_from_buf (ctx : Lite3Ctx) (buf : List Nat) : Int × Lite3Ctx :=
  lite3_ctx_import_from_buf ctx buf

/-- `shim_lite3_ctx_json_dec` from lite3_shim.c: pure delegation. -/
def shim_lite3_ctx_json_dec (ctx : Lite3Ctx) (js : List Nat) (jl e : Nat) :
    Int × Lite3Ctx × Nat :=
  lite3_ctx_json_dec ctx js jl e

/- ===================== claims C6, C7, C8 ===================== -/

theorem lite3_iter_next_err_neg {buf : List Nat} {it : Lite3Iter} {e : Int}
    (h : lite3_iter_next buf it = .err e) : e < 0 := by
  unfold lite3_iter_next at h
  split at h
  · simp at h
  · split at h
    · injection h with h2
      rw [← h2]
      decide
    · split at h
      · injection h with h2
        rw [← h2]
        decide
      · split at h
        · split at h
          · injection h with h2
            rw [← h2]
            decide
          · simp at h
        · simp at h

/-- C6: iterator stepping distinguishes success, done and error: on success
`shim_lite3_iter_next` returns `0` and writes `*val_ofs` (and for an object
entry writes the entry's key view through `*key_ptr`/`*key_len`, while for
an array entry it writes `NULL`/`0`); it returns exactly `1` when the
iteration is exhausted (leaving all out-parameters unwritten); it returns a
negative error code on error; and the done result `1` is distinct from
success and from every error return. -/
theorem claim6_iter_next_trichotomy (buf : List Nat) (it : Lite3Iter) :
    (match lite3_iter_next buf it with
     | .ok kp klen v it2 =>
       (shim_lite3_iter_next buf it).ret = 0 ∧
       (shim_lite3_iter_next buf it).val_ofs = some v ∧
       (shim_lite3_iter_next buf it).iter = it2 ∧
       (match kp with
        | some kofs =>
          (shim_lite3_iter_next buf it).key_ptr
            = some (LITE3_STR buf ⟨some kofs, klen⟩) ∧
          (shim_lite3_iter_next buf it).key_len = some klen
        | none =>
          (shim_lite3_iter_next buf it).key_ptr = some none ∧
          (shim_lite3_iter_next buf it).key_len = some 0)
     | .done =>
       (shim_lite3_iter_next buf it).ret = 1 ∧
       (shim_lite3_iter_next buf it).key_ptr = none ∧
       (shim_lite3_iter_next buf it).key_len = none ∧
       (shim_lite3_iter_next buf it).val_ofs = none
     | .err e => (shim_lite3_iter_next buf it).ret = e ∧ e < 0) ∧
    ((shim_lite3_iter_next buf it).ret = 1 ↔ lite3_iter_next buf it = .done) := by
  cases hn : lite3_iter_next buf it with
  | ok kp klen v it2 =>
    constructor
    · cases kp with
      | some kofs => simp [shim_lite3_iter_next, hn]
      | none => simp [shim_lite3_iter_next, hn]
    · constructor
      · intro h1
        cases kp <;> simp [shim_lite3_iter_next, hn] at h1
      · intro hd
        simp at hd
  | done =>
    constructor
    · simp [shim_lite3_iter_next, hn]
    · exact ⟨fun _ => rfl, fun _ => by simp [shim_lite3_iter_next, hn]⟩
  | err e =>
    have he : e < 0 := lite3_iter_next_err_neg hn
    constructor
    · exact ⟨by simp [shim_lite3_iter_next, hn], he⟩
    · constructor
      · intro h1
        simp [shim_lite3_iter_next, hn] at h1
        omega
      · intro hd
        simp at hd

theorem shim_iter_create_buf (buf : List Nat) (ofs : Nat) :
    (shim_lite3_iter_create buf ofs).buf = buf := by
  unfold shim_lite3_iter_create
  cases lite3_iter_create buf ofs <;> rfl

theorem shim_iter_next_buf (buf : List Nat) (it : Lite3Iter) :
    (shim_lite3_iter_next buf it).buf = buf := by
  unfold shim_lite3_iter_next
  cases lite3_iter_next buf it with
  | ok kp klen v it2 => cases kp <;> rfl
  | done => rfl
  | err e => rfl

/-- The sequence of results produced by repeatedly calling
`shim_lite3_iter_next` against a fixed buffer, stopping after the first
non-success return. -/
def iterTraceP (buf : List Nat) :
    Nat → Lite3Iter → List (Int × Option (Option Nat) × Option Nat × Option Nat)
  | 0, _ => []
  | fuel+1, it =>
    let r := shim_lite3_iter_next buf it
    if r.ret = 0 then (r.ret, r.key_ptr, r.key_len, r.val_ofs) :: iterTraceP buf fuel r.iter
    else [(r.ret, r.key_ptr, r.key_len, r.val_ofs)]

/-- The same traversal under memory-state-passing semantics: each call runs
against the buffer returned by the previous call, and the final buffer is
returned alongside the results. -/
def iterTraceS (buf : List Nat) :
    Nat → Lite3Iter →
      (List (Int × Option (Option Nat) × Option Nat × Option Nat)) × List Nat
  | 0, _ => ([], buf)
  | fuel+1, it =>
    let r := shim_lite3_iter_next buf it
    if r.ret = 0 then
      let rest := iterTraceS r.buf fuel r.iter
      ((r.ret, r.key_ptr, r.key_len, r.val_ofs) :: rest.1, rest.2)
    else ([(r.ret, r.key_ptr, r.key_len, r.val_ofs)], r.buf)

theorem iterTraceS_pure (buf : List Nat) : ∀ (fuel : Nat) (it : Lite3Iter),
    iterTraceS buf fuel it = (iterTraceP buf fuel it, buf) := by
  intro fuel
  induction fuel with
  | zero => intro it; rfl
  | succ fuel ih =>
    intro it
    unfold iterTraceS iterTraceP
    by_cases h0 : (shim_lite3_iter_next buf it).ret = 0
    · simp only [shim_iter_next_buf, if_pos h0, ih]
    · simp only [shim_iter_next_buf, if_neg h0]

/-- C7: iteration never mutates the container and is repeatable:
`shim_lite3_iter_create` and `shim_lite3_iter_next` leave every byte of the
buffer unchanged (even under state-passing semantics), and two fresh cursors
obtained by `shim_lite3_iter_create` on the same `(buffer, offset)` are
equal and yield identical sequences of results followed by the same
terminating signal. -/
theorem claim7_iter_no_mutation_repeatable (buf : List Nat) (ofs fuel : Nat)
    (it1 it2 : Lite3Iter)
    (h1 : (shim_lite3_iter_create buf ofs).iter = some it1)
    (h2 : (shim_lite3_iter_create buf ofs).iter = some it2) :
    (shim_lite3_iter_create buf ofs).buf = buf ∧
    (∀ it : Lite3Iter, (shim_lite3_iter_next buf it).buf = buf) ∧
    it1 = it2 ∧
    iterTraceP buf fuel it1 = iterTraceP buf fuel it2 ∧
    iterTraceS buf fuel it1 = (iterTraceP buf fuel it1, buf) := by
  have hit : it1 = it2 := Option.some.inj (h1.symm.trans h2)
  exact ⟨shim_iter_create_buf buf ofs, fun it => shim_iter_next_buf buf it, hit,
    by rw [hit], iterTraceS_pure buf fuel it1⟩

/-- Witness for C7 at a concrete input: fresh cursors on the 9-byte empty
root object behave identically and without mutation. -/
theorem claim7_witness :
    iterTraceS [6,0,0,0,0,0,0,0,0] 3 ⟨true, 0, 0⟩ =
      (iterTraceP [6,0,0,0,0,0,0,0,0] 3 ⟨true, 0, 0⟩, [6,0,0,0,0,0,0,0,0]) :=
  (claim7_iter_no_mutation_repeatable [6,0,0,0,0,0,0,0,0] 0 3
    ⟨true, 0, 0⟩ ⟨true, 0, 0⟩ (by decide) (by decide)).2.2.2.2

/-- `sizeof(uint32_t)` in bytes. -/
def sizeof_uint32 : Nat := 4

/-- `shim_lite3_iter` is `uint32_t _opaque[16]` (lite3_shim.h): sixteen
u32 words; alignment 4 divides the array size, so the struct has no trailing
padding and its size is exactly the array's. -/
def sizeof_shim_lite3_iter : Nat := 16 * sizeof_uint32

/-- A machine word (the widest field the cursor can hold) in bytes. -/
def sizeof_machine_word : Nat := 8

/-- Modelled from the spec (4.4): `lite3_iter` stores a container kind, a
loop bound and a current byte position — three machine words, independent of
the iterated container. -/
def sizeof_lite3_iter : Nat := 3 * sizeof_machine_word

/-- The bytes needed for a cursor over a container with `entryCount` entries
inside a buffer of `bufLen` bytes: the cursor type is one fixed type, so
this is a constant function. -/
def cursorBytesFor (_entryCount _bufLen : Nat) : Nat := sizeof_shim_lite3_iter

/-- C8: the exposed cursor type is exactly sixteen `uint32_t` (64 bytes) for
every instantiation, `sizeof(lite3_iter) ≤ sizeof(shim_lite3_iter)` holds
(the `_Static_assert` in lite3_shim.c), and the cursor's size does not
depend on the iterated container's entry count or the buffer's length.  (The
iterator operations are pure functions of their arguments in this model and
allocate nothing.) -/
theorem claim8_iter_cursor_fixed_size :
    sizeof_shim_lite3_iter = 64 ∧
    sizeof_lite3_iter ≤ sizeof_shim_lite3_iter ∧
    ∀ n m : Nat, cursorBytesFor n m = 64 :=
  ⟨rfl, by decide, fun _ _ => rfl⟩

/- ===================== enabled JSON codec model (C5) ===================== -/

/-- Decimal digit bytes of a natural number. -/
def digitsOf (n : Nat) : List Nat := (Nat.toDigits 10 n).map Char.toNat

/-- JSON integer literal bytes of an int64. -/
def intLit (v : Int) : List Nat :=
  if v < 0 then 45 :: digitsOf v.natAbs else digitsOf v.toNat

/-- Lower-case hex digit byte. -/
def hexDigit (n : Nat) : Nat := if n < 10 then 48 + n else 87 + n

/-- Standard JSON string escaping of one byte: quote and backslash are
backslash-escaped, control characters become `\u00XX`, everything else is
passed through. -/
def escByte (c : Nat) : List Nat :=
  if c = 34 then [92, 34]
  else if c = 92 then [92, 92]
  else if c < 32 then [92, 117, 48, 48, hexDigit (c / 16), hexDigit (c % 16)]
  else [c]

/-- Escape every byte of a string. -/
def escBytes (s : List Nat) : List Nat := s.foldr (fun c acc => escByte c ++ acc) []

/-- A quoted, escaped JSON string. -/
def quoteStr (s : List Nat) : List Nat := 34 :: escBytes s ++ [34]

/-- The three serialization tasks of the JSON encoder: a value subtree, the
remaining entries of an object, or the remaining elements of an array. -/
inductive EncTask where
  | val (ofs : Nat)
  | entries (count link : Nat)
  | elems (count link : Nat)
deriving DecidableEq

/-- Modelled from the spec (4.5 Encode): serialize to compact JSON text.
Int64 renders as an integer literal; Float64's textual form is abstracted as
the bit pattern's decimal literal (an injective rendering; no claim depends
on the float text); String uses standard JSON escaping; Bytes is rejected
(`JsonUnsupportedValue` policy); object entries render as
`"key":value` joined by commas inside braces, array elements joined by
commas inside brackets, in chain order; `fuel` bounds the recursion (spec
I5) so a corrupt cyclic chain fails instead of diverging. -/
def jsonEnc (buf : List Nat) : Nat → EncTask → Option (List Nat)
  | 0, _ => none
  | fuel+1, .val ofs =>
    match readByte buf ofs with
    | some 0 => some [110, 117, 108, 108]
    | some 1 =>
      match readByte buf (ofs+1) with
      | some 0 => some [102, 97, 108, 115, 101]
      | some _ => some [116, 114, 117, 101]
      | none => none
    | some 2 => (readU64 buf (ofs+1)).map (fun n => intLit (toI64 n))
    | some 3 => (readU64 buf (ofs+1)).map (fun n => digitsOf n)
    | some 4 =>
      match readU32 buf (ofs+1) with
      | some len =>
        if ofs + 5 + len ≤ buf.length then some (quoteStr (listSlice buf (ofs+5) len))
        else none
      | none => none
    | some 5 => none
    | some 6 =>
      match readU32 buf (ofs+1), readU32 buf (ofs+5) with
      | some count, some first =>
        (jsonEnc buf fuel (.entries count first)).map (fun l => 123 :: l ++ [125])
      | _, _ => none
    | some 7 =>
      match readU32 buf (ofs+1), readU32 buf (ofs+5) with
      | some count, some first =>
        (jsonEnc buf fuel (.elems count first)).map (fun l => 91 :: l ++ [93])
      | _, _ => none
    | _ => none
  | _+1, .entries 0 _ => some []
  | fuel+1, .entries (count+1) link =>
    if link = 0 then none
    else
      match readU32 buf link, readU32 buf (link+4) with
      | some nxt, some klen =>
        if link + 8 + klen ≤ buf.length then
          match jsonEnc buf fuel (.val (link+8+klen)),
              jsonEnc buf fuel (.entries count nxt) with
          | some vtxt, some rest =>
            some (quoteStr (listSlice buf (link+8) klen) ++ [58] ++ vtxt ++
              (if count = 0 then [] else [44]) ++ rest)
          | _, _ => none
        else none
      | _, _ => none
  | _+1, .elems 0 _ => some []
  | fuel+1, .elems (count+1) link =>
    if link = 0 then none
    else
      match readU32 buf link with
      | some nxt =>
        match jsonEnc buf fuel (.val (link+4)), jsonEnc buf fuel (.elems count nxt) with
        | some vtxt, some rest =>
          some (vtxt ++ (if count = 0 then [] else [44]) ++ rest)
        | _, _ => none
      | none => none

/-- Serialize the value subtree rooted at `ofs`. -/
def jsonEncAt (buf : List Nat) (fuel ofs : Nat) : Option (List Nat) :=
  jsonEnc buf fuel (.val ofs)

namespace JsonEnabled

/-- Result of the enabled caller-buffer encoder. -/
structure EncBufRes where
  ret : Int
  json_buf : List Nat
deriving DecidableEq

/-- Modelled from the spec (4.5 Encode, write-into-caller-buffer variant):
returns the required length of the serialized text; when the caller buffer
is large enough the text is written into its prefix; when it is too small
the needed size is still returned and not a single byte of the caller
buffer is written. -/
def lite3_json_enc_buf (buf : List Nat) (ofs : Nat) (json_buf : List Nat) : EncBufRes :=
  match jsonEncAt buf (buf.length+1) ofs with
  | none => ⟨ERR_UNSUPPORTED, json_buf⟩
  | some text =>
    if text.length ≤ json_buf.length then
      ⟨(text.length : Int), text ++ json_buf.drop text.length⟩
    else ⟨(text.length : Int), json_buf⟩

/-- `shim_lite3_json_enc_buf` from lite3_shim.c linked against the enabled
codec: pure delegation. -/
def shim_lite3_json_enc_buf (buf : List Nat) (ofs : Nat) (json_buf : List Nat) : EncBufRes :=
  lite3_json_enc_buf buf ofs json_buf

end JsonEnabled

/-- C5: write-into-caller-buffer JSON encoding reports the needed size
without overrunning: whenever the subtree at `ofs` serializes to `text`,
`shim_lite3_json_enc_buf` (enabled codec) returns `text.length`; the caller
buffer never changes size (no byte at or past `json_buf + json_bufsz` is
written); when the caller buffer is too small it is left entirely
untouched; when it is large enough the text occupies its prefix and the
rest is untouched; and a second pass with a buffer of exactly the reported
size yields the full text (size-then-fill). -/
theorem claim5_json_enc_buf_size_reporting
    (buf : List Nat) (ofs : Nat) (json_buf text : List Nat)
    (h : jsonEncAt buf (buf.length+1) ofs = some text) :
    (JsonEnabled.shim_lite3_json_enc_buf buf ofs json_buf).ret = (text.length : Int) ∧
    (JsonEnabled.shim_lite3_json_enc_buf buf ofs json_buf).json_buf.length
      = json_buf.length ∧
    (json_buf.length < text.length →
      (JsonEnabled.shim_lite3_json_enc_buf buf ofs json_buf).json_buf = json_buf) ∧
    (text.length ≤ json_buf.length →
      (JsonEnabled.shim_lite3_json_enc_buf buf ofs json_buf).json_buf.take text.length
        = text ∧
      (JsonEnabled.shim_lite3_json_enc_buf buf ofs json_buf).json_buf.drop text.length
        = json_buf.drop text.length) ∧
    (JsonEnabled.shim_lite3_json_enc_buf buf ofs
        (List.replicate text.length 0)).json_buf = text := by
  unfold JsonEnabled.shim_lite3_json_enc_buf JsonEnabled.lite3_json_enc_buf
  simp only [h]
  by_cases hle : text.length ≤ json_buf.length
  · rw [if_pos hle]
    refine ⟨rfl, ?_, ?_, ?_, ?_⟩
    · simp only [List.length_append, List.length_drop]
      omega
    · intro hlt; omega
    · intro _
      constructor
      · have ht := List.take_left text (json_buf.drop text.length)
        simp only [ht]
      · have h1 : (text ++ json_buf.drop text.length).drop text.length
            = json_buf.drop text.length :=
          List.drop_left text (json_buf.drop text.length)
        simp only [h1]
    · rw [if_pos (by simp)]
      have : (List.replicate text.length (0 : Nat)).drop text.length = [] := by
        apply List.drop_eq_nil_of_le
        simp
      simp [this]
  · rw [if_neg hle]
    refine ⟨rfl, rfl, fun _ => rfl, fun hc => absurd hc hle, ?_⟩
    rw [if_pos (by simp)]
    have : (List.replicate text.length (0 : Nat)).drop text.length = [] := by
      apply List.drop_eq_nil_of_le
      simp
    simp [this]

/-- Witness for C5 at a concrete input: the 9-byte empty root object
serializes to the 2-byte text `\x7b\x7d`; an empty caller buffer is left
untouched while the needed size 2 is reported, and a 2-byte second pass
receives the text. -/
theorem claim5_witness :
    (JsonEnabled.shim_lite3_json_enc_buf [6,0,0,0,0,0,0,0,0] 0 []).ret
      = (([123, 125] : List Nat).length : Int) ∧
    (JsonEnabled.shim_lite3_json_enc_buf [6,0,0,0,0,0,0,0,0] 0 []).json_buf = [] ∧
    (JsonEnabled.shim_lite3_json_enc_buf [6,0,0,0,0,0,0,0,0] 0
        (List.replicate ([123, 125] : List Nat).length 0)).json_buf = [123, 125] := by
  have h := claim5_json_enc_buf_size_reporting [6,0,0,0,0,0,0,0,0] 0 [] [123, 125]
    (by decide)
  exact ⟨h.1, h.2.2.1 (by decide), h.2.2.2.2⟩

/- ===================== errno-threaded wrappers (C9) ===================== -/

/-- Errno-threaded form of `lite3_set`: the engine neither reads nor writes
`errno`, so the state passes through untouched. -/
def lite3_setE (e : Nat) (buf : List Nat) (ofs bufsz : Nat) (key : List Nat)
    (v : SetVal) : SetResult × Nat :=
  (lite3_set buf ofs bufsz key v, e)

/-- Errno-threaded form of `lite3_get_i64`. -/
def lite3_get_i64E (e : Nat) (buf : List Nat) (ofs : Nat) (key : List Nat) :
    GetI64Res × Nat :=
  (lite3_get_i64 buf ofs key, e)

/-- Errno-threaded form of `lite3_iter_next`. -/
def lite3_iter_nextE (e : Nat) (buf : List Nat) (it : Lite3Iter) :
    IterNextRes × Nat :=
  (lite3_iter_next buf it, e)

/-- C9: every exposed operation is a flat function of its explicit
parameters: with `errno` threaded explicitly, the observable results of the
JSON entry points (which write `errno` but never read it) and of the
engine operations (which never touch it) are independent of the incoming
`errno` value, the engine operations pass `errno` through unchanged, and
repeating any call with identical arguments — even feeding the first call's
outgoing `errno` into the second — produces identical results. -/
theorem claim9_flat_functions_no_global_state
    (buf : List Nat) (out_buflen bufsz : Nat) (js : List Nat) (jl : Nat)
    (buflen ofs bufsz2 : Nat) (out_len : Option Nat) (key : List Nat)
    (v : SetVal) (it : Lite3Iter) (e1 e2 : Nat) :
    (JsonDisabled.lite3_json_dec buf out_buflen bufsz js jl e1).ret
      = (JsonDisabled.lite3_json_dec buf out_buflen bufsz js jl e2).ret ∧
    (JsonDisabled.lite3_json_dec buf out_buflen bufsz js jl e1).buf
      = (JsonDisabled.lite3_json_dec buf out_buflen bufsz js jl e2).buf ∧
    (JsonDisabled.lite3_json_dec buf out_buflen bufsz js jl e1).out_buflen
      = (JsonDisabled.lite3_json_dec buf out_buflen bufsz js jl e2).out_buflen ∧
    (JsonDisabled.lite3_json_enc buf buflen ofs out_len e1).ret
      = (JsonDisabled.lite3_json_enc buf buflen ofs out_len e2).ret ∧
    (JsonDisabled.lite3_json_enc buf buflen ofs out_len e1).out_len
      = (JsonDisabled.lite3_json_enc buf buflen ofs out_len e2).out_len ∧
    (lite3_setE e1 buf ofs bufsz2 key v).1 = (lite3_setE e2 buf ofs bufsz2 key v).1 ∧
    (lite3_setE e1 buf ofs bufsz2 key v).2 = e1 ∧
    (lite3_get_i64E e1 buf ofs key).1 = (lite3_get_i64E e2 buf ofs key).1 ∧
    (lite3_get_i64E e1 buf ofs key).2 = e1 ∧
    (lite3_iter_nextE e1 buf it).1 = (lite3_iter_nextE e2 buf it).1 ∧
    (lite3_iter_nextE e1 buf it).2 = e1 ∧
    (lite3_setE (lite3_setE e1 buf ofs bufsz2 key v).2 buf ofs bufsz2 key v).1
      = (lite3_setE e1 buf ofs bufsz2 key v).1 ∧
    (JsonDisabled.lite3_json_dec buf out_buflen bufsz js jl
        (JsonDisabled.lite3_json_dec buf out_buflen bufsz js jl e1).errno).ret
      = (JsonDisabled.lite3_json_dec buf out_buflen bufsz js jl e1).ret ∧
    (JsonDisabled.lite3_json_dec buf out_buflen bufsz js jl
        (JsonDisabled.lite3_json_dec buf out_buflen bufsz js jl e1).errno).buf
      = (JsonDisabled.lite3_json_dec buf out_buflen bufsz js jl e1).buf := by
  and_intros <;> rfl

/- ===================== claim C10 ===================== -/

theorem lite3_get_val_error_neg {buf : List Nat} {ofs : Nat} {key : List Nat}
    {e : Int} (h : lite3_get_val buf ofs key = .error e) : e < 0 := by
  unfold lite3_get_val at h
  split at h
  · split at h
    · injection h with h2; rw [← h2]; decide
    · split at h
      · simp at h
      · injection h with h2; rw [← h2]; decide
      · injection h with h2; rw [← h2]; decide
  · injection h with h2; rw [← h2]; decide
  · injection h with h2; rw [← h2]; decide

theorem lite3_arr_get_val_error_neg {buf : List Nat} {ofs i : Nat} {e : Int}
    (h : lite3_arr_get_val buf ofs i = .error e) : e < 0 := by
  unfold lite3_arr_get_val at h
  split at h
  · split at h
    · injection h with h2; rw [← h2]; decide
    · split at h
      · split at h
        · simp at h
        · injection h with h2; rw [← h2]; decide
      · injection h with h2; rw [← h2]; decide
  · injection h with h2; rw [← h2]; decide
  · injection h with h2; rw [← h2]; decide

theorem viewGet_success_view (buf : List Nat) (r : Except Int Nat) (tag : Nat)
    (hr : ∀ e, r = .error e → e < 0) (h0 : 0 ≤ (viewGet buf r tag).ret) :
    ∃ s, (viewGet buf r tag).view = some s := by
  unfold viewGet at h0 ⊢
  cases r with
  | error e =>
    exfalso
    have he := hr e rfl
    simp at h0
    omega
  | ok v =>
    cases hb : readByte buf v with
    | none =>
      exfalso
      simp [hb, ERR_MALFORMED] at h0
    | some t =>
      by_cases ht : t = tag
      · cases hu : readU32 buf (v+1) with
        | some len =>
          simp only [hb, if_pos ht, hu]
          exact ⟨⟨some (v+5), len⟩, rfl⟩
        | none =>
          exfalso
          simp [hb, if_pos ht, hu, ERR_MALFORMED] at h0
      · exfalso
        simp [hb, if_neg ht, ERR_TYPE] at h0

/-- The shim's view-translation pattern, shared by the four string/bytes
getters in lite3_shim.c. -/
def shimViewT (resolve : List Nat → Lite3Str → Option Nat) (buf : List Nat)
    (r : GetStrRes) : ShimViewRes :=
  if 0 ≤ r.ret then
    match r.view with
    | some s =>
      match resolve buf s with
      | some p => ⟨r.ret, some (some p), some s.len⟩
      | none => ⟨r.ret, some none, some 0⟩
    | none => ⟨r.ret, none, none⟩
  else ⟨r.ret, none, none⟩

theorem shimViewT_spec (resolve : List Nat → Lite3Str → Option Nat)
    (buf : List Nat) (r : GetStrRes)
    (hview : 0 ≤ r.ret → ∃ s, r.view = some s) :
    (shimViewT resolve buf r).ret = r.ret ∧
    (r.ret < 0 → (shimViewT resolve buf r).out_ptr = none ∧
      (shimViewT resolve buf r).out_len = none) ∧
    (0 ≤ r.ret → ∃ s, r.view = some s ∧
      ((∃ p, resolve buf s = some p ∧
          (shimViewT resolve buf r).out_ptr = some (some p) ∧
          (shimViewT resolve buf r).out_len = some s.len) ∨
       (resolve buf s = none ∧
          (shimViewT resolve buf r).out_ptr = some none ∧
          (shimViewT resolve buf r).out_len = some 0))) := by
  by_cases h0 : 0 ≤ r.ret
  · obtain ⟨s, hs⟩ := hview h0
    refine ⟨?_, ?_, ?_⟩
    · cases hres : resolve buf s <;> simp [shimViewT, if_pos h0, hs, hres]
    · intro hlt; omega
    · intro _
      refine ⟨s, hs, ?_⟩
      cases hres : resolve buf s with
      | some p =>
        left
        exact ⟨p, rfl, by simp [shimViewT, if_pos h0, hs, hres],
          by simp [shimViewT, if_pos h0, hs, hres]⟩
      | none =>
        right
        exact ⟨rfl, by simp [shimViewT, if_pos h0, hs, hres],
          by simp [shimViewT, if_pos h0, hs, hres]⟩
  · refine ⟨?_, ?_, ?_⟩
    · simp [shimViewT, if_neg h0]
    · intro _
      exact ⟨by simp [shimViewT, if_neg h0], by simp [shimViewT, if_neg h0]⟩
    · intro hge; exact absurd hge h0


/-- C4: the shim layer is pure delegation, covering every `shim_` function
in lite3_shim.c.  Each wrapper that calls its wrapped `lite3_` engine
function on the same arguments — the buffer-API set/append/scalar-get/
count/json families and the whole Context-API family (create/destroy,
init, set, get, append, count, import, json_dec) — is extensionally equal
to it; in particular `shim_lite3_set_i64 = lite3_set_i64` and
`shim_lite3_get_i64 = lite3_get_i64` (`shim_lite3_set_str`,
`shim_lite3_arr_append_str` and their ctx counterparts wrap the `_n`
engine variants; the JSON entry points delegate to the linked
configuration's codec, here the disabled stub).  The field accessors
`ctx_buf`/`ctx_buflen`/`ctx_bufsz` return the container's fields exactly;
`shim_lite3_exists`/`shim_lite3_ctx_exists` return the C integer value of
the wrapped bool (`1` iff true, `0` iff false); `shim_lite3_iter_create`
returns exactly the engine's return value and writes exactly the engine's
cursor; the four ctx view getters pass the wrapped return value through
and translate the view for the FFI exactly as their buffer counterparts
(the buffer-level view getters and `iter_next` are settled by C10 and
C6). -/
theorem claim4_shim_pure_delegation :
    shim_lite3_set_i64 = lite3_set_i64 ∧
    shim_lite3_get_i64 = lite3_get_i64 ∧
    shim_lite3_get_bool = lite3_get_bool ∧
    shim_lite3_get_f64 = lite3_get_f64 ∧
    shim_lite3_get_obj = lite3_get_obj ∧
    shim_lite3_get_arr = lite3_get_arr ∧
    shim_lite3_get_type = lite3_get_type ∧
    shim_lite3_set_null = lite3_set_null ∧
    shim_lite3_set_bool = lite3_set_bool ∧
    shim_lite3_set_f64 = lite3_set_f64 ∧
    shim_lite3_set_str = lite3_set_str_n ∧
    shim_lite3_set_bytes = lite3_set_bytes ∧
    shim_lite3_set_obj = lite3_set_obj ∧
    shim_lite3_set_arr = lite3_set_arr ∧
    shim_lite3_arr_append_null = lite3_arr_append_null ∧
    shim_lite3_arr_append_bool = lite3_arr_append_bool ∧
    shim_lite3_arr_append_i64 = lite3_arr_append_i64 ∧
    shim_lite3_arr_append_f64 = lite3_arr_append_f64 ∧
    shim_lite3_arr_append_str = lite3_arr_append_str_n ∧
    shim_lite3_arr_append_bytes = lite3_arr_append_bytes ∧
    shim_lite3_arr_append_obj = lite3_arr_append_obj ∧
    shim_lite3_arr_append_arr = lite3_arr_append_arr ∧
    shim_lite3_arr_get_bool = lite3_arr_get_bool ∧
    shim_lite3_arr_get_i64 = lite3_arr_get_i64 ∧
    shim_lite3_arr_get_f64 = lite3_arr_get_f64 ∧
    shim_lite3_arr_get_obj = lite3_arr_get_obj ∧
    shim_lite3_arr_get_arr = lite3_arr_get_arr ∧
    shim_lite3_arr_get_type = lite3_arr_get_type ∧
    shim_lite3_count = lite3_count ∧
    shim_lite3_json_dec = JsonDisabled.lite3_json_dec ∧
    shim_lite3_json_enc = JsonDisabled.lite3_json_enc ∧
    shim_lite3_json_enc_pretty = JsonDisabled.lite3_json_enc_pretty ∧
    shim_lite3_json_enc_buf = JsonDisabled.lite3_json_enc_buf ∧
    shim_lite3_ctx_create = lite3_ctx_create ∧
    shim_lite3_ctx_create_with_size = lite3_ctx_create_with_size ∧
    shim_lite3_ctx_create_from_buf = lite3_ctx_create_from_buf ∧
    shim_lite3_ctx_destroy = lite3_ctx_destroy ∧
    shim_lite3_ctx_init_obj = lite3_ctx_init_obj ∧
    shim_lite3_ctx_init_arr = lite3_ctx_init_arr ∧
    shim_lite3_ctx_set_null = lite3_ctx_set_null ∧
    shim_lite3_ctx_set_bool = lite3_ctx_set_bool ∧
    shim_lite3_ctx_set_i64 = lite3_ctx_set_i64 ∧
    shim_lite3_ctx_set_f64 = lite3_ctx_set_f64 ∧
    shim_lite3_ctx_set_str = lite3_ctx_set_str_n ∧
    shim_lite3_ctx_set_bytes = lite3_ctx_set_bytes ∧
    shim_lite3_ctx_set_obj = lite3_ctx_set_obj ∧
    shim_lite3_ctx_set_arr = lite3_ctx_set_arr ∧
    shim_lite3_ctx_get_type = lite3_ctx_get_type ∧
    shim_lite3_ctx_get_bool = lite3_ctx_get_bool ∧
    shim_lite3_ctx_get_i64 = lite3_ctx_get_i64 ∧
    shim_lite3_ctx_get_f64 = lite3_ctx_get_f64 ∧
    shim_lite3_ctx_get_obj = lite3_ctx_get_obj ∧
    shim_lite3_ctx_get_arr = lite3_ctx_get_arr ∧
    shim_lite3_ctx_arr_append_null = lite3_ctx_arr_append_null ∧
    shim_lite3_ctx_arr_append_bool = lite3_ctx_arr_append_bool ∧
    shim_lite3_ctx_arr_append_i64 = lite3_ctx_arr_append_i64 ∧
    shim_lite3_ctx_arr_append_f64 = lite3_ctx_arr_append_f64 ∧
    shim_lite3_ctx_arr_append_str = lite3_ctx_arr_append_str_n ∧
    shim_lite3_ctx_arr_append_bytes = lite3_ctx_arr_append_bytes ∧
    shim_lite3_ctx_arr_append_obj = lite3_ctx_arr_append_obj ∧
    shim_lite3_ctx_arr_append_arr = lite3_ctx_arr_append_arr ∧
    shim_lite3_ctx_arr_get_bool = lite3_ctx_arr_get_bool ∧
    shim_lite3_ctx_arr_get_i64 = lite3_ctx_arr_get_i64 ∧
    shim_lite3_ctx_arr_get_f64 = lite3_ctx_arr_get_f64 ∧
    shim_lite3_ctx_arr_get_obj = lite3_ctx_arr_get_obj ∧
    shim_lite3_ctx_arr_get_arr = lite3_ctx_arr_get_arr ∧
    shim_lite3_ctx_arr_get_type = lite3_ctx_arr_get_type ∧
    shim_lite3_ctx_count = lite3_ctx_count ∧
    shim_lite3_ctx_import_from_buf = lite3_ctx_import_from_buf ∧
    shim_lite3_ctx_json_dec = lite3_ctx_json_dec ∧
    shim_lite3_ctx_buf = Lite3Ctx.buf ∧
    shim_lite3_ctx_buflen = (fun ctx : Lite3Ctx => ctx.buf.length) ∧
    shim_lite3_ctx_bufsz = Lite3Ctx.bufsz ∧
    (∀ (buf : List Nat) (ofs : Nat) (key : List Nat),
      (shim_lite3_exists buf ofs key = 1 ↔ lite3_exists buf ofs key = true) ∧
      (shim_lite3_exists buf ofs key = 0 ↔ lite3_exists buf ofs key = false)) ∧
    (∀ (ctx : Lite3Ctx) (ofs : Nat) (key : List Nat),
      (shim_lite3_ctx_exists ctx ofs key = 1 ↔ lite3_ctx_exists ctx ofs key = true) ∧
      (shim_lite3_ctx_exists ctx ofs key = 0 ↔ lite3_ctx_exists ctx ofs key = false)) ∧
    (∀ (buf : List Nat) (ofs : Nat),
      (match lite3_iter_create buf ofs with
       | .ok it => (shim_lite3_iter_create buf ofs).ret = 0 ∧
                   (shim_lite3_iter_create buf ofs).iter = some it
       | .err e => (shim_lite3_iter_create buf ofs).ret = e ∧
                   (shim_lite3_iter_create buf ofs).iter = none) ∧
      (shim_lite3_iter_create buf ofs).buf = buf) ∧
    (∀ (ctx : Lite3Ctx) (ofs : Nat) (key : List Nat),
      (shim_lite3_ctx_get_str ctx ofs key).ret = (lite3_ctx_get_str ctx ofs key).ret ∧
      ((lite3_ctx_get_str ctx ofs key).ret < 0 →
        (shim_lite3_ctx_get_str ctx ofs key).out_ptr = none ∧
        (shim_lite3_ctx_get_str ctx ofs key).out_len = none) ∧
      (0 ≤ (lite3_ctx_get_str ctx ofs key).ret →
        ∃ s, (lite3_ctx_get_str ctx ofs key).view = some s ∧
        ((∃ p, LITE3_STR ctx.buf s = some p ∧
            (shim_lite3_ctx_get_str ctx ofs key).out_ptr = some (some p) ∧
            (shim_lite3_ctx_get_str ctx ofs key).out_len = some s.len) ∨
         (LITE3_STR ctx.buf s = none ∧
            (shim_lite3_ctx_get_str ctx ofs key).out_ptr = some none ∧
            (shim_lite3_ctx_get_str ctx ofs key).out_len = some 0)))) ∧
    (∀ (ctx : Lite3Ctx) (ofs : Nat) (key : List Nat),
      (shim_lite3_ctx_get_bytes ctx ofs key).ret = (lite3_ctx_get_bytes ctx ofs key).ret ∧
      ((lite3_ctx_get_bytes ctx ofs key).ret < 0 →
        (shim_lite3_ctx_get_bytes ctx ofs key).out_ptr = none ∧
        (shim_lite3_ctx_get_bytes ctx ofs key).out_len = none) ∧
      (0 ≤ (lite3_ctx_get_bytes ctx ofs key).ret →
        ∃ s, (lite3_ctx_get_bytes ctx ofs key).view = some s ∧
        ((∃ p, LITE3_BYTES ctx.buf s = some p ∧
            (shim_lite3_ctx_get_bytes ctx ofs key).out_ptr = some (some p) ∧
            (shim_lite3_ctx_get_bytes ctx ofs key).out_len = some s.len) ∨
         (LITE3_BYTES ctx.buf s = none ∧
            (shim_lite3_ctx_get_bytes ctx ofs key).out_ptr = some none ∧
            (shim_lite3_ctx_get_bytes ctx ofs key).out_len = some 0)))) ∧
    (∀ (ctx : Lite3Ctx) (ofs i : Nat),
      (shim_lite3_ctx_arr_get_str ctx ofs i).ret = (lite3_ctx_arr_get_str ctx ofs i).ret ∧
      ((lite3_ctx_arr_get_str ctx ofs i).ret < 0 →
        (shim_lite3_ctx_arr_get_str ctx ofs i).out_ptr = none ∧
        (shim_lite3_ctx_arr_get_str ctx ofs i).out_len = none) ∧
      (0 ≤ (lite3_ctx_arr_get_str ctx ofs i).ret →
        ∃ s, (lite3_ctx_arr_get_str ctx ofs i).view = some s ∧
        ((∃ p, LITE3_STR ctx.buf s = some p ∧
            (shim_lite3_ctx_arr_get_str ctx ofs i).out_ptr = some (some p) ∧
            (shim_lite3_ctx_arr_get_str ctx ofs i).out_len = some s.len) ∨
         (LITE3_STR ctx.buf s = none ∧
            (shim_lite3_ctx_arr_get_str ctx ofs i).out_ptr = some none ∧
            (shim_lite3_ctx_arr_get_str ctx ofs i).out_len = some 0)))) ∧
    (∀ (ctx : Lite3Ctx) (ofs i : Nat),
      (shim_lite3_ctx_arr_get_bytes ctx ofs i).ret = (lite3_ctx_arr_get_bytes ctx ofs i).ret ∧
      ((lite3_ctx_arr_get_bytes ctx ofs i).ret < 0 →
        (shim_lite3_ctx_arr_get_bytes ctx ofs i).out_ptr = none ∧
        (shim_lite3_ctx_arr_get_bytes ctx ofs i).out_len = none) ∧
      (0 ≤ (lite3_ctx_arr_get_bytes ctx ofs i).ret →
        ∃ s, (lite3_ctx_arr_get_bytes ctx ofs i).view = some s ∧
        ((∃ p, LITE3_BYTES ctx.buf s = some p ∧
            (shim_lite3_ctx_arr_get_bytes ctx ofs i).out_ptr = some (some p) ∧
            (shim_lite3_ctx_arr_get_bytes ctx ofs i).out_len = some s.len) ∨
         (LITE3_BYTES ctx.buf s = none ∧
            (shim_lite3_ctx_arr_get_bytes ctx ofs i).out_ptr = some none ∧
            (shim_lite3_ctx_arr_get_bytes ctx ofs i).out_len = some 0)))) := by
  and_intros
  all_goals try rfl
  · intro buf ofs key
    cases h : lite3_exists buf ofs key <;> simp [shim_lite3_exists, h]
  · intro ctx ofs key
    cases h : lite3_ctx_exists ctx ofs key <;> simp [shim_lite3_ctx_exists, h]
  · intro buf ofs
    refine ⟨?_, shim_iter_create_buf buf ofs⟩
    cases hc : lite3_iter_create buf ofs with
    | ok it => simp [shim_lite3_iter_create, hc]
    | err e => simp [shim_lite3_iter_create, hc]
  · intro ctx ofs key
    exact shimViewT_spec LITE3_STR ctx.buf (lite3_ctx_get_str ctx ofs key)
      (fun h0 => viewGet_success_view ctx.buf (lite3_get_val ctx.buf ofs key) 4
        (fun _ he => lite3_get_val_error_neg he) h0)
  · intro ctx ofs key
    exact shimViewT_spec LITE3_BYTES ctx.buf (lite3_ctx_get_bytes ctx ofs key)
      (fun h0 => viewGet_success_view ctx.buf (lite3_get_val ctx.buf ofs key) 5
        (fun _ he => lite3_get_val_error_neg he) h0)
  · intro ctx ofs i
    exact shimViewT_spec LITE3_STR ctx.buf (lite3_ctx_arr_get_str ctx ofs i)
      (fun h0 => viewGet_success_view ctx.buf (lite3_arr_get_val ctx.buf ofs i) 4
        (fun _ he => lite3_arr_get_val_error_neg he) h0)
  · intro ctx ofs i
    exact shimViewT_spec LITE3_BYTES ctx.buf (lite3_ctx_arr_get_bytes ctx ofs i)
      (fun h0 => viewGet_success_view ctx.buf (lite3_arr_get_val ctx.buf ofs i) 5
        (fun _ he => lite3_arr_get_val_error_neg he) h0)
/-- C10: the four string/bytes getters of the shim fully initialize their
view outputs exactly on success: whenever the wrapped engine lookup returns
a non-negative result both `*out_ptr` and `*out_len` are written, with
`*out_ptr = NULL` exactly when the view fails to resolve (and then
`*out_len = 0`, otherwise the resolved pointer and the view's length);
whenever the lookup returns a negative result, both out-parameters are left
unwritten; and the shim returns the wrapped lookup's return value. -/
theorem claim10_view_getters_outputs (buf : List Nat) (ofs i : Nat)
    (key : List Nat) :
    ((shim_lite3_get_str buf ofs key).ret = (lite3_get_str buf ofs key).ret ∧
     ((lite3_get_str buf ofs key).ret < 0 →
       (shim_lite3_get_str buf ofs key).out_ptr = none ∧
       (shim_lite3_get_str buf ofs key).out_len = none) ∧
     (0 ≤ (lite3_get_str buf ofs key).ret →
       ∃ s, (lite3_get_str buf ofs key).view = some s ∧
       ((∃ p, LITE3_STR buf s = some p ∧
           (shim_lite3_get_str buf ofs key).out_ptr = some (some p) ∧
           (shim_lite3_get_str buf ofs key).out_len = some s.len) ∨
        (LITE3_STR buf s = none ∧
           (shim_lite3_get_str buf ofs key).out_ptr = some none ∧
           (shim_lite3_get_str buf ofs key).out_len = some 0)))) ∧
    ((shim_lite3_get_bytes buf ofs key).ret = (lite3_get_bytes buf ofs key).ret ∧
     ((lite3_get_bytes buf ofs key).ret < 0 →
       (shim_lite3_get_bytes buf ofs key).out_ptr = none ∧
       (shim_lite3_get_bytes buf ofs key).out_len = none) ∧
     (0 ≤ (lite3_get_bytes buf ofs key).ret →
       ∃ s, (lite3_get_bytes buf ofs key).view = some s ∧
       ((∃ p, LITE3_BYTES buf s = some p ∧
           (shim_lite3_get_bytes buf ofs key).out_ptr = some (some p) ∧
           (shim_lite3_get_bytes buf ofs key).out_len = some s.len) ∨
        (LITE3_BYTES buf s = none ∧
           (shim_lite3_get_bytes buf ofs key).out_ptr = some none ∧
           (shim_lite3_get_bytes buf ofs key).out_len = some 0)))) ∧
    ((shim_lite3_arr_get_str buf ofs i).ret = (lite3_arr_get_str buf ofs i).ret ∧
     ((lite3_arr_get_str buf ofs i).ret < 0 →
       (shim_lite3_arr_get_str buf ofs i).out_ptr = none ∧
       (shim_lite3_arr_get_str buf ofs i).out_len = none) ∧
     (0 ≤ (lite3_arr_get_str buf ofs i).ret →
       ∃ s, (lite3_arr_get_str buf ofs i).view = some s ∧
       ((∃ p, LITE3_STR buf s = some p ∧
           (shim_lite3_arr_get_str buf ofs i).out_ptr = some (some p) ∧
           (shim_lite3_arr_get_str buf ofs i).out_len = some s.len) ∨
        (LITE3_STR buf s = none ∧
           (shim_lite3_arr_get_str buf ofs i).out_ptr = some none ∧
           (shim_lite3_arr_get_str buf ofs i).out_len = some 0)))) ∧
    ((shim_lite3_arr_get_bytes buf ofs i).ret = (lite3_arr_get_bytes buf ofs i).ret ∧
     ((lite3_arr_get_bytes buf ofs i).ret < 0 →
       (shim_lite3_arr_get_bytes buf ofs i).out_ptr = none ∧
       (shim_lite3_arr_get_bytes buf ofs i).out_len = none) ∧
     (0 ≤ (lite3_arr_get_bytes buf ofs i).ret →
       ∃ s, (lite3_arr_get_bytes buf ofs i).view = some s ∧
       ((∃ p, LITE3_BYTES buf s = some p ∧
           (shim_lite3_arr_get_bytes buf ofs i).out_ptr = some (some p) ∧
           (shim_lite3_arr_get_bytes buf ofs i).out_len = some s.len) ∨
        (LITE3_BYTES buf s = none ∧
           (shim_lite3_arr_get_bytes buf ofs i).out_ptr = some none ∧
           (shim_lite3_arr_get_bytes buf ofs i).out_len = some 0)))) := by
  refine ⟨?_, ?_, ?_, ?_⟩
  · exact shimViewT_spec LITE3_STR buf (lite3_get_str buf ofs key)
      (viewGet_success_view buf (lite3_get_val buf ofs key) 4
        (fun _ he => lite3_get_val_error_neg he))
  · exact shimViewT_spec LITE3_BYTES buf (lite3_get_bytes buf ofs key)
      (viewGet_success_view buf (lite3_get_val buf ofs key) 5
        (fun _ he => lite3_get_val_error_neg he))
  · exact shimViewT_spec LITE3_STR buf (lite3_arr_get_str buf ofs i)
      (viewGet_success_view buf (lite3_arr_get_val buf ofs i) 4
        (fun _ he => lite3_arr_get_val_error_neg he))
  · exact shimViewT_spec LITE3_BYTES buf (lite3_arr_get_bytes buf ofs i)
      (viewGet_success_view buf (lite3_arr_get_val buf ofs i) 5
        (fun _ he => lite3_arr_get_val_error_neg he))

/-- Witness for C10 at a concrete input: after setting key `a` to the
string `xyz` in an empty root object, `shim_lite3_get_str` succeeds and
writes the resolved pointer (offset 23) and length 3 through its view
outputs. -/
theorem claim10_witness :
    (shim_lite3_get_str
      ((lite3_set [6,0,0,0,0,0,0,0,0] 0 100 [97] (SetVal.vstr [120,121,122])).buf)
      0 [97]).out_ptr = some (some 23) ∧
    (shim_lite3_get_str
      ((lite3_set [6,0,0,0,0,0,0,0,0] 0 100 [97] (SetVal.vstr [120,121,122])).buf)
      0 [97]).out_len = some 3 := by
  obtain ⟨s, hs, hd⟩ := (claim10_view_getters_outputs
    ((lite3_set [6,0,0,0,0,0,0,0,0] 0 100 [97] (SetVal.vstr [120,121,122])).buf)
    0 0 [97]).1.2.2 (by decide)
  have hs23 : s = ⟨some 23, 3⟩ := by
    have hv : (lite3_get_str
        ((lite3_set [6,0,0,0,0,0,0,0,0] 0 100 [97] (SetVal.vstr [120,121,122])).buf)
        0 [97]).view = some (⟨some 23, 3⟩ : Lite3Str) := by decide
    exact Option.some.inj (hs.symm.trans hv)
  subst hs23
  have hres23 : LITE3_STR
      ((lite3_set [6,0,0,0,0,0,0,0,0] 0 100 [97] (SetVal.vstr [120,121,122])).buf)
      ⟨some 23, 3⟩ = some 23 := by decide
  rcases hd with ⟨p, hres, hp, hl⟩ | ⟨hres, hp, hl⟩
  · have hp23 : p = 23 := Option.some.inj (hres.symm.trans hres23)
    subst hp23
    exact ⟨hp, hl⟩
  · rw [hres23] at hres
    exact Option.noConfusion hres
